import Mathlib

/-!
Verification of the PersonalAIOS "intelligent manager" components
(`ai_file_manager.py`, `settings_manager.py`, `window_manager.py`,
`application_launcher.py`, `workspace_manager.py`).

The development shallowly embeds the text-normalisation pipeline, the
regex-based intent matcher, the intent dispatchers and the JSON
persistence layer of the repository.  Python strings are modelled as
`List Char` (with `String` wrappers at the API boundary), Python floats
as `Rat` (every arithmetic fact used here is exact), Python exceptions
as `Except PyExn`, and the regular-expression fragment actually used by
the pattern tables is given a faithful backtracking semantics
(`reRun`), including Python's leftmost-search, lazy/greedy priorities,
word boundaries and `$`.
-/

/-- Python exceptions are modelled by their `str(e)` message. -/
abbrev PyExn := String

/-- The whitespace characters recognised by Python's `str.split`,
`str.strip` and the regex class `\s` (ASCII fragment). -/
def isPyWs (c : Char) : Bool :=
  c = ' ' || c = '\t' || c = '\n' || c = '\r' || c = '\x0b' || c = '\x0c'

/-- Python's regex class `\w` (ASCII fragment): letters, digits, underscore. -/
def isWordChar (c : Char) : Bool :=
  ('a' ≤ c && c ≤ 'z') || ('A' ≤ c && c ≤ 'Z') || ('0' ≤ c && c ≤ '9') || c = '_'

/-- ASCII lower-casing of one character; model of Python's `str.lower`
on the ASCII inputs handled by this repository. -/
def pyLowerChar (c : Char) : Char :=
  if 65 ≤ c.toNat ∧ c.toNat ≤ 90 then Char.ofNat (c.toNat + 32) else c

/-- `str.lower` on a character list. -/
def pyLower (l : List Char) : List Char := l.map pyLowerChar

/-- `str.lstrip()` (default whitespace). -/
def pyLstrip (l : List Char) : List Char := l.dropWhile isPyWs

/-- `str.strip()` (default whitespace): drop whitespace from both ends. -/
def pyStrip (l : List Char) : List Char :=
  ((l.dropWhile isPyWs).reverse.dropWhile isPyWs).reverse

/-- `text.split()` with no argument: split on whitespace runs,
discarding empty tokens. -/
def pySplitWs : List Char → List (List Char)
  | [] => []
  | c :: rest =>
    if isPyWs c then pySplitWs rest
    else
      match pySplitWs rest with
      | [] => [[c]]
      | t :: ts =>
        match rest with
        | [] => [[c]]
        | d :: _ => if isPyWs d then [c] :: t :: ts else (c :: t) :: ts

/-- `' '.join(tokens)`. -/
def pyJoinSp : List (List Char) → List Char
  | [] => []
  | [t] => t
  | t :: ts => t ++ ' ' :: pyJoinSp ts

/-- Does `pat` occur as a contiguous sublist starting at the head? -/
def startsWithSub (pat l : List Char) : Bool :=
  match pat, l with
  | [], _ => true
  | _ :: _, [] => false
  | p :: ps, c :: cs => p = c && startsWithSub ps cs

/-- Python's `pat in s` substring test. -/
def containsSub (l pat : List Char) : Bool :=
  match l with
  | [] => pat.isEmpty
  | _ :: cs => startsWithSub pat l || containsSub cs pat

/-- `String` version of the substring test. -/
def strContains (s pat : String) : Bool := containsSub s.data pat.data

/-- Fuelled worker for `pyReplace`; `fuel ≥ l.length` makes the fuel
irrelevant (each step consumes at least one character). -/
def pyReplaceAux (pat repl : List Char) : Nat → List Char → List Char
  | 0, l => l
  | _ + 1, [] => []
  | fuel + 1, c :: cs =>
    if 0 < pat.length && startsWithSub pat (c :: cs) then
      repl ++ pyReplaceAux pat repl fuel ((c :: cs).drop pat.length)
    else
      c :: pyReplaceAux pat repl fuel cs

/-- Python's `str.replace(pat, repl)` (case-sensitive, all
non-overlapping occurrences, left to right). -/
def pyReplace (pat repl l : List Char) : List Char :=
  pyReplaceAux pat repl l.length l

/-- The embedding of `re.sub(r'\s+', ' ', text)`: every maximal
whitespace run becomes a single space (the greedy `\s+` always takes
the full run). -/
def collapseWs : List Char → List Char
  | [] => []
  | [c] => if isPyWs c then [' '] else [c]
  | a :: b :: rest =>
    if isPyWs a && isPyWs b then collapseWs (b :: rest)
    else (if isPyWs a then ' ' else a) :: collapseWs (b :: rest)

/-!
## A backtracking regex engine for the pattern fragment of the repo

Every pattern table in the repository uses only: literals, `.`, `\s`,
`\w`, `\d`, concatenation, alternation `|`, greedy/lazy `+` and `?`,
non-capturing `(?:...)`, capturing groups, `\b` and `$`.  All calls use
`re.search(..., re.IGNORECASE)` (or an IGNORECASE `re.sub`), so
literals match case-insensitively.  `reRun` returns all match
endpoints in the engine's backtracking priority order, so its head is
exactly the match Python's engine reports.
-/

/-- Regex abstract syntax (the fragment used by the pattern tables). -/
inductive RE where
  | eps : RE
  | lit : Char → RE
  | dot : RE
  | wsc : RE
  | wordc : RE
  | digitc : RE
  | seq : RE → RE → RE
  | alt : RE → RE → RE
  | opt : Bool → RE → RE
  | plus : Bool → RE → RE
  | group : Nat → RE → RE
  | bnd : RE
  | eos : RE
deriving Repr

/-- Captures: `(group index, start, end)`, most recent first. -/
abbrev Caps := List (Nat × Nat × Nat)

/-- Does position `i` of `s` satisfy `\b`? Exactly one neighbour is a
word character. -/
def atWordBoundary (s : List Char) (i : Nat) : Bool :=
  let before := match s.get? (i - 1) with
    | some c => decide (0 < i) && isWordChar c
    | none => false
  let after := match s.get? i with
    | some c => isWordChar c
    | none => false
  before != after

/-- One-character class step shared by `lit`/`dot`/`\s`/`\w`/`\d`. -/
def clsStep (p : Char → Bool) (s : List Char) (i : Nat) (caps : Caps) :
    List (Nat × Caps) :=
  match s.get? i with
  | some c => if p c then [(i + 1, caps)] else []
  | none => []

/-- Iterate the body of a `+` at least zero further times.  `body i c`
returns the endpoints of one body match from `i`; iterations that make
no progress stop the loop (no pattern in the repository has a nullable
`+`-body, so that branch is never taken on the embedded patterns).
Greedy order: longer continuations first; lazy order: stop first. -/
def plusIter (body : Nat → Caps → List (Nat × Caps)) (lazy : Bool) :
    Nat → Nat → Caps → List (Nat × Caps)
  | 0, _, _ => []
  | fuel + 1, i, caps =>
    (body i caps).flatMap fun jc =>
      if jc.1 ≤ i then [jc]
      else if lazy then jc :: plusIter body lazy fuel jc.1 jc.2
      else plusIter body lazy fuel jc.1 jc.2 ++ [jc]

/-- All endpoints (with captures) of `r` matching `s` from position
`i`, in backtracking priority order. -/
def reRun (s : List Char) : RE → Nat → Caps → List (Nat × Caps)
  | .eps, i, caps => [(i, caps)]
  | .lit c, i, caps => clsStep (fun d => pyLowerChar d = pyLowerChar c) s i caps
  | .dot, i, caps => clsStep (fun d => d ≠ '\n') s i caps
  | .wsc, i, caps => clsStep isPyWs s i caps
  | .wordc, i, caps => clsStep isWordChar s i caps
  | .digitc, i, caps => clsStep (fun d => '0' ≤ d && d ≤ '9') s i caps
  | .seq a b, i, caps =>
    (reRun s a i caps).flatMap fun jc => reRun s b jc.1 jc.2
  | .alt a b, i, caps => reRun s a i caps ++ reRun s b i caps
  | .opt lazy a, i, caps =>
    if lazy then (i, caps) :: reRun s a i caps
    else reRun s a i caps ++ [(i, caps)]
  | .plus lazy a, i, caps =>
    plusIter (fun j c => reRun s a j c) lazy (s.length + 1) i caps
  | .group n a, i, caps =>
    (reRun s a i caps).map fun jc => (jc.1, (n, i, jc.1) :: jc.2)
  | .bnd, i, caps => if atWordBoundary s i then [(i, caps)] else []
  | .eos, i, caps =>
    if i = s.length || (i + 1 = s.length && s.get? i = some '\n') then
      [(i, caps)]
    else []

/-- `re.search`: try start positions `i, i+1, ...` (at most `n` of
them) and return `(start, end, captures)` of the first position where
the engine finds a match; the head of `reRun` is that match. -/
def reSearchFrom (r : RE) (s : List Char) : Nat → Nat → Option (Nat × Nat × Caps)
  | 0, _ => none
  | n + 1, i =>
    match (reRun s r i []).head? with
    | some jc => some (i, jc.1, jc.2)
    | none => reSearchFrom r s n (i + 1)

/-- `re.search(r, s)` returning the leftmost match. -/
def reSearch (r : RE) (s : List Char) : Option (Nat × Nat × Caps) :=
  reSearchFrom r s (s.length + 1) 0

/-- Number of capturing groups of a pattern (groups are numbered
`1..count` in the translations below). -/
def reGroupCount : RE → Nat
  | .seq a b => max (reGroupCount a) (reGroupCount b)
  | .alt a b => max (reGroupCount a) (reGroupCount b)
  | .opt _ a => reGroupCount a
  | .plus _ a => reGroupCount a
  | .group n a => max n (reGroupCount a)
  | _ => 0

/-- The substring `s[a:b]`. -/
def sliceStr (s : List Char) (a b : Nat) : List Char := (s.drop a).take (b - a)

/-- `match.groups()`: for each group index, the captured substring or
`none`. -/
def capsToGroups (s : List Char) (caps : Caps) (count : Nat) :
    List (Option (List Char)) :=
  (List.range count).map fun k =>
    match caps.find? (fun t => t.1 = k + 1) with
    | some t => some (sliceStr s t.2.1 t.2.2)
    | none => none

/-- `re.search` returning `match.groups()`, or `none` when the pattern
does not match anywhere. -/
def pySearchGroups (r : RE) (s : List Char) : Option (List (Option (List Char))) :=
  match reSearch r s with
  | some t => some (capsToGroups s t.2.2 (reGroupCount r))
  | none => none

/-! ### Pattern-building helpers (for transliterating the tables) -/

/-- Concatenation of a pattern list. -/
def rcat (l : List RE) : RE := l.foldr .seq .eps

/-- Alternation `(?:a|b|...)` (left to right priority). -/
def ralts (l : List RE) : RE :=
  match l with
  | [] => .eps
  | [r] => r
  | r :: rs => .alt r (ralts rs)

/-- A literal string (each character case-insensitive, as under
`re.IGNORECASE`). -/
def rstr (t : String) : RE := rcat (t.data.map .lit)

/-- Greedy `X?`. -/
def ropt (r : RE) : RE := .opt false r

/-- Greedy `X+`. -/
def rplus (r : RE) : RE := .plus false r

/-- Lazy `X+?`. -/
def rplusL (r : RE) : RE := .plus true r

/-- `(.+)` as group `n`. -/
def rcapAll (n : Nat) : RE := .group n (rplus .dot)

/-- `(.+?)` as group `n`. -/
def rcapLazy (n : Nat) : RE := .group n (rplusL .dot)

/-!
## The shared intent-matching loop

Each `Intelligent*Manager` runs the same loop
(`_extract_intent_and_entities` / `_extract_intent_dynamically`):
iterate the pattern table in insertion order, iterate each intent's
patterns in list order, and return the first `re.search` success.
-/

/-- The shared matcher loop over a pattern table: first intent (in
table order) whose first pattern (in list order) matches, together
with that match's `groups()`. -/
def extractIntent (table : List (String × List RE)) (text : List Char) :
    Option (String × List (Option (List Char))) :=
  table.findSome? fun ip =>
    ip.2.findSome? fun r => (pySearchGroups r text).map fun g => (ip.1, g)

/-- The table flattened to `(intent, pattern)` pairs in scan order. -/
def tablePairs (table : List (String × List RE)) : List (String × RE) :=
  table.flatMap fun ip => ip.2.map fun r => (ip.1, r)

/-- An apostrophe, as a one-character string. -/
def apos : String := String.singleton (Char.ofNat 39)

/-!
## `ai_file_manager.py`: `IntelligentFileManager`
-/

/-- The file manager's `intent_patterns` table, transliterated pattern
by pattern from `IntelligentFileManager.__init__`. -/
def fmIntentPatterns : List (String × List RE) :=
  [("create_file",
    [rcat [rstr "create ", ropt (rstr "a "), rstr "file ",
           ropt (ralts [rstr "named ", rstr "called "]), rcapAll 1],
     rcat [rstr "make ", ropt (rstr "a "), rstr "file ",
           ropt (ralts [rstr "named ", rstr "called "]), rcapAll 1],
     rcat [rstr "new file ", ropt (ralts [rstr "named ", rstr "called "]), rcapAll 1],
     rcat [rstr "touch ", rcapAll 1],
     rcat [rstr "create ", .group 1 (rcat [rplus .dot, .lit '.', rplus .wordc])]]),
   ("create_directory",
    [rcat [rstr "create ", ropt (rstr "a "), ralts [rstr "folder", rstr "directory"],
           rstr " ", ropt (ralts [rstr "named ", rstr "called "]), rcapAll 1],
     rcat [rstr "make ", ropt (rstr "a "), ralts [rstr "folder", rstr "directory"],
           rstr " ", ropt (ralts [rstr "named ", rstr "called "]), rcapAll 1],
     rcat [rstr "new ", ralts [rstr "folder", rstr "directory"],
           rstr " ", ropt (ralts [rstr "named ", rstr "called "]), rcapAll 1],
     rcat [rstr "mkdir ", rcapAll 1]]),
   ("find_file",
    [rcat [rstr "find ", ropt (ralts [rstr "a ", rstr "the "]), rstr "file ",
           ropt (ralts [rstr "named ", rstr "called "]), rcapAll 1],
     rcat [rstr "search for ", ropt (ralts [rstr "a ", rstr "the "]), rstr "file ",
           ropt (ralts [rstr "named ", rstr "called "]), rcapAll 1],
     rcat [rstr "locate ", ropt (ralts [rstr "a ", rstr "the "]), rstr "file ",
           ropt (ralts [rstr "named ", rstr "called "]), rcapAll 1],
     rcat [rstr "where is ", ropt (rstr "the "), rstr "file ",
           ropt (ralts [rstr "named ", rstr "called "]), rcapAll 1],
     rcat [rstr "look for ", rcapAll 1],
     rcat [rstr "find ", rcapAll 1]]),
   ("open_file",
    [rcat [rstr "open ", ropt (rstr "the "), rstr "file ",
           ropt (ralts [rstr "named ", rstr "called "]), rcapAll 1],
     rcat [rstr "launch ", ropt (rstr "the "), rstr "file ",
           ropt (ralts [rstr "named ", rstr "called "]), rcapAll 1],
     rcat [rstr "run ", ropt (rstr "the "), rstr "file ",
           ropt (ralts [rstr "named ", rstr "called "]), rcapAll 1],
     rcat [rstr "open ", rcapAll 1]]),
   ("delete_file",
    [rcat [rstr "delete ", ropt (rstr "the "), rstr "file ",
           ropt (ralts [rstr "named ", rstr "called "]), rcapAll 1],
     rcat [rstr "remove ", ropt (rstr "the "), rstr "file ",
           ropt (ralts [rstr "named ", rstr "called "]), rcapAll 1],
     rcat [rstr "trash ", ropt (rstr "the "), rstr "file ",
           ropt (ralts [rstr "named ", rstr "called "]), rcapAll 1],
     rcat [rstr "delete ", rcapAll 1],
     rcat [rstr "rm ", rcapAll 1]]),
   ("list_files",
    [rcat [rstr "list ", ropt (rstr "all "), ropt (rstr "the "), rstr "files"],
     rcat [rstr "show ", ropt (rstr "me "), ropt (rstr "all "), ropt (rstr "the "),
           rstr "files"],
     rcat [rstr "what files are ", ropt (rstr "in "), rstr "here"],
     rcat [rstr "display ", ropt (rstr "the "), rstr "contents"],
     rstr "ls",
     rstr "dir"]),
   ("copy_file",
    [rcat [rstr "copy ", ropt (rstr "the "), rstr "file ", rcapAll 1,
           rstr " to ", rcapAll 2],
     rcat [rstr "duplicate ", ropt (rstr "the "), rstr "file ", rcapAll 1,
           rstr " ", ralts [rstr "to", rstr "as"], rstr " ", rcapAll 2],
     rcat [rstr "cp ", rcapAll 1, rstr " ", rcapAll 2]]),
   ("move_file",
    [rcat [rstr "move ", ropt (rstr "the "), rstr "file ", rcapAll 1,
           rstr " to ", rcapAll 2],
     rcat [rstr "rename ", ropt (rstr "the "), rstr "file ", rcapAll 1,
           rstr " ", ralts [rstr "to", rstr "as"], rstr " ", rcapAll 2],
     rcat [rstr "mv ", rcapAll 1, rstr " ", rcapAll 2]])]

/-- The file manager's `context_keywords`. -/
def fmContextKeywords : List (String × List String) :=
  [("urgency", ["urgent", "quickly", "asap", "now", "immediately"]),
   ("size", ["large", "big", "small", "tiny", "huge"]),
   ("type", ["document", "image", "video", "audio", "text", "script"]),
   ("location", ["desktop", "documents", "downloads", "home"])]

/-- `IntelligentFileManager._extract_context`: for each category, the
keywords occurring in the text (categories with no hit are omitted). -/
def fmExtractContext (text : List Char) : List (String × List String) :=
  fmContextKeywords.filterMap fun ck =>
    match ck.2.filter (fun kw => containsSub text kw.data) with
    | [] => none
    | found => some (ck.1, found)

/-- Entities as built by `_extract_intent_and_entities`: the match's
captured groups plus the keyword context. -/
structure FMEntities where
  groups : List (Option (List Char))
  context : List (String × List String)
deriving DecidableEq, Repr

/-- `IntelligentFileManager._preprocess_text`: collapse whitespace via
`' '.join(text.split())`, then four case-sensitive `str.replace`
deletions, then `lower().strip()`.  (Note: the replacements run before
lower-casing, and `"could you"` is not among them.) -/
def fmPreprocess (l : List Char) : List Char :=
  let t := pyJoinSp (pySplitWs l)
  let t := pyReplace ("i" ++ apos ++ "d like to").data [] t
  let t := pyReplace "can you".data [] t
  let t := pyReplace "please".data [] t
  let t := pyReplace "would you".data [] t
  pyStrip (pyLower t)

/-- `IntelligentFileManager._extract_intent_and_entities`. -/
def fmExtract (text : List Char) : Option (String × FMEntities) :=
  (extractIntent fmIntentPatterns text).map fun ig =>
    (ig.1, ⟨ig.2, fmExtractContext text⟩)

/-- The file-manager state touched by the embedded handlers: the
current directory (a path string) and the files it contains, as
`(name, content)` pairs.  Subdirectory trees, which no verified claim
touches, are not modelled. -/
structure FMState where
  cwd : String
  entries : List (String × String)
deriving DecidableEq, Repr

/-- `IntelligentFileManager._clean_filename`: strip one leading
article (`re.sub(r'^(?:a |an |the )', '', ...)`, anchored, `a ` tried
before `an ` before `the `), drop the invalid filename characters
`<>:"/\|?*`, and strip whitespace. -/
def cleanFilename (l : List Char) : List Char :=
  let t :=
    if startsWithSub "a ".data l then l.drop 2
    else if startsWithSub "an ".data l then l.drop 3
    else if startsWithSub "the ".data l then l.drop 4
    else l
  let bad : List Char := ['<', '>', ':', '"', '/', '\\', '|', '?', '*']
  pyStrip (t.filter (fun c => ¬ bad.contains c))

/-- Template content chosen by `_add_template_content` from the
`type` context keywords. -/
def fmTemplateContent (types : List String) : String :=
  if types.contains "script" then "#!/bin/bash\n# Script created by PersonalAIOS\n\n"
  else if types.contains "document" then "# Document\n\nCreated by PersonalAIOS\n"
  else ""

/-- `IntelligentFileManager._create_file` on the modelled state.  The
inner `try` around the filesystem calls never fires in the model (the
modelled `touch`/`write_text` are total), so only the success paths
appear. -/
def fmCreateFile (e : FMEntities) (st : FMState) : Except PyExn (String × FMState) :=
  match e.groups.head? with
  | some (some g) =>
    if g = [] then .ok ("📄 **Please specify the filename to create**", st)
    else
      let filename := cleanFilename (pyStrip g)
      let fn : String := ⟨filename⟩
      let pathStr := st.cwd ++ "/" ++ fn
      if (st.entries.find? (fun p => p.1 = fn)).isSome then
        .ok ("⚠️ **File already exists:** " ++ fn, st)
      else
        let content :=
          match e.context.find? (fun c => c.1 = "type") with
          | some c => fmTemplateContent c.2
          | none => ""
        .ok ("📄 **Created file:** " ++ fn ++ "\n   └─ Path: `" ++ pathStr ++ "`",
             { st with entries := (fn, content) :: st.entries })
  | _ => .ok ("📄 **Please specify the filename to create**", st)

/-- The eight handler slots dispatched by
`IntelligentFileManager._execute_intent`. -/
structure FMHandlers where
  createFile : FMEntities → FMState → Except PyExn (String × FMState)
  createDirectory : FMEntities → FMState → Except PyExn (String × FMState)
  findFile : FMEntities → FMState → Except PyExn (String × FMState)
  openFile : FMEntities → FMState → Except PyExn (String × FMState)
  deleteFile : FMEntities → FMState → Except PyExn (String × FMState)
  listFiles : FMEntities → FMState → Except PyExn (String × FMState)
  copyFile : FMEntities → FMState → Except PyExn (String × FMState)
  moveFile : FMEntities → FMState → Except PyExn (String × FMState)

/-- The body of `_execute_intent`: the `if/elif` chain selecting a
handler by intent name, before the surrounding `try`. -/
def fmDispatch (h : FMHandlers) (intent : String) (e : FMEntities) (st : FMState) :
    Except PyExn (String × FMState) :=
  if intent = "create_file" then h.createFile e st
  else if intent = "create_directory" then h.createDirectory e st
  else if intent = "find_file" then h.findFile e st
  else if intent = "open_file" then h.openFile e st
  else if intent = "delete_file" then h.deleteFile e st
  else if intent = "list_files" then h.listFiles e st
  else if intent = "copy_file" then h.copyFile e st
  else if intent = "move_file" then h.moveFile e st
  else .ok ("❓ **Intent recognized** (" ++ intent ++ ") but not implemented yet", st)

/-- `IntelligentFileManager._execute_intent`: the dispatch chain
wrapped in the blanket `try/except` that renders any exception as a
formatted error string.  (State mutated before a raise is not tracked;
no claim concerns it.) -/
def fmExecuteIntent (h : FMHandlers) (intent : String) (e : FMEntities) (st : FMState) :
    String × FMState :=
  match fmDispatch h intent e st with
  | .ok r => r
  | .error ex => ("❌ **Error executing " ++ intent ++ ":** " ++ ex, st)

/-- A handler slot whose real body only performs external effects
(subprocess, directory walks) outside the model; no verified claim
dispatches to it.  It returns a fixed placeholder response. -/
def fmExternalHandler (msg : String) : FMEntities → FMState → Except PyExn (String × FMState) :=
  fun _ st => .ok (msg, st)

/-- The concrete handler assignment of `IntelligentFileManager`:
`_create_file` is embedded in full; the seven other handlers act only
through external collaborators and are placeholders here. -/
def fmRealHandlers : FMHandlers :=
  { createFile := fmCreateFile
    createDirectory := fmExternalHandler "create_directory"
    findFile := fmExternalHandler "find_file"
    openFile := fmExternalHandler "open_file"
    deleteFile := fmExternalHandler "delete_file"
    listFiles := fmExternalHandler "list_files"
    copyFile := fmExternalHandler "copy_file"
    moveFile := fmExternalHandler "move_file" }

/-- `IntelligentFileManager._handle_unknown_intent`'s canned help
text (with the raw user input interpolated). -/
def fmHelpText (u : String) : String :=
  "❓ **I didn" ++ apos ++ "t understand:** \"" ++ u ++ "\"\n\n**Try these natural language commands:**\n\n**Create Files:**\n• \"create a file named report.txt\"\n• \"make a new document called notes\"\n\n**Find Files:**  \n• \"find the file named config.py\"\n• \"search for my report\"\n\n**Manage Files:**\n• \"open the downloads folder\"\n• \"delete old backup files\"\n• \"list all files\"\n\n**I understand natural language, so speak naturally!** 🤖"

/-- `IntelligentFileManager.process_command`. -/
def fmProcessCommand (st : FMState) (userInput : String) : String × FMState :=
  let cleaned := fmPreprocess userInput.data
  match fmExtract cleaned with
  | none => (fmHelpText userInput, st)
  | some ie => fmExecuteIntent fmRealHandlers ie.1 ie.2 st

/-!
## Word-boundary filler removal (`re.sub(r'\b(?:...)\b', '', ...)`)

`settings_manager.py` and `window_manager.py` remove fillers with a
single word-boundary-anchored alternation (words separated by `\s+`);
`application_launcher.py` applies one `re.sub(f'\\b{re.escape(f)}\\b',
'', ...)` per filler, with literal spaces.  Every filler starts and
ends with a word character, so `\b` at the match edges is equivalent
to "the neighbouring character is absent or not a word character".
-/

/-- Case-insensitive literal prefix match, returning the remainder. -/
def matchLitCI : List Char → List Char → Option (List Char)
  | [], l => some l
  | _ :: _, [] => none
  | w :: ws, c :: cs =>
    if pyLowerChar c = pyLowerChar w then matchLitCI ws cs else none

/-- Match a filler written as words separated by `\s+`: each gap must
consume at least one whitespace character (maximal run; the next word
starts with a non-whitespace character, so greediness is immaterial). -/
def matchWordsWS : List (List Char) → List Char → Option (List Char)
  | [], l => some l
  | w :: ws, l =>
    match ws with
    | [] => matchLitCI w l
    | _ :: _ =>
      (matchLitCI w l).bind fun r =>
        let r' := r.dropWhile isPyWs
        if r'.length < r.length then matchWordsWS ws r' else none

/-- A filler occurrence is accepted only when followed by a word
boundary: end of text or a non-word character. -/
def trailingBoundaryOk : List Char → Bool
  | [] => true
  | d :: _ => ! isWordChar d

/-- Remove every boundary-anchored occurrence found by `probe`,
scanning left to right exactly as `re.sub` does: `probe` reports the
last character of the matched region and the remainder after it; the
scan resumes there (boundaries keep referring to the original text via
the carried previous character). -/
def remByAux (probe : List Char → Option (Char × List Char)) :
    Nat → Option Char → List Char → List Char
  | 0, _, l => l
  | _ + 1, _, [] => []
  | fuel + 1, prev, c :: cs =>
    let bOk := match prev with
      | some p => ! isWordChar p
      | none => true
    match (if bOk then probe (c :: cs) else none) with
    | some lr => remByAux probe fuel (some lr.1) lr.2
    | none => c :: remByAux probe fuel (some c) cs

/-- The last character of a filler (a word character for every filler
in the repository). -/
def fillerLastChar (f : List (List Char)) : Char :=
  match f.reverse with
  | w :: _ =>
    match w.reverse with
    | c :: _ => c
    | [] => ' '
  | [] => ' '

/-- Probe for a single alternation `\b(?:f₁|f₂|...)\b` (word gaps are
`\s+`), alternatives tried left to right. -/
def fillersProbe (fillers : List (List (List Char))) (l : List Char) :
    Option (Char × List Char) :=
  fillers.findSome? fun f =>
    (matchWordsWS f l).bind fun r =>
      if trailingBoundaryOk r then some (fillerLastChar f, r) else none

/-- `re.sub(r'\b(?:f₁|f₂|...)\b', '', text, flags=re.IGNORECASE)`. -/
def subFillersWB (fillers : List (List (List Char))) (l : List Char) : List Char :=
  remByAux (fillersProbe fillers) l.length none l

/-- Probe for one literal phrase `\bphrase\b` (spaces literal, as
produced by `re.escape`). -/
def phraseProbe (ph : List Char) (l : List Char) : Option (Char × List Char) :=
  (matchLitCI ph l).bind fun r =>
    if trailingBoundaryOk r then some (ph.getLastD ' ', r) else none

/-- `re.sub(f'\\b{re.escape(ph)}\\b', '', text, flags=re.IGNORECASE)`. -/
def subPhraseWB (ph : List Char) (l : List Char) : List Char :=
  remByAux (phraseProbe ph) l.length none l

/-!
## `settings_manager.py`: `IntelligentSettingsManager`
-/

/-- `SettingType` (the `list` member is never used by a core setting). -/
inductive SettingType where
  | boolean | integer | float | string | list | choice | color | file | directory
deriving DecidableEq, Repr

/-- Python values stored in settings (`Rat` stands for Python floats;
all values handled here are exact). -/
inductive PyVal where
  | str : String → PyVal
  | bool : Bool → PyVal
  | int : Int → PyVal
  | float : Rat → PyVal
  | none : PyVal
deriving DecidableEq, Repr

/-- `SettingDefinition` (the fields consulted by the embedded code;
`category`, `priority`, `validation_pattern` and `help_text` are never
read by any embedded operation). -/
structure SettingDef where
  id : String
  name : String
  description : String
  stype : SettingType
  defaultValue : PyVal
  currentValue : PyVal
  choices : List String
  minValue : Option Rat
  maxValue : Option Rat
  requiresRestart : Bool
  component : Option String
  keywords : List String
  lastModified : Rat
  modifiedBy : String
deriving DecidableEq, Repr

/-- Shorthand for a core setting as built by `_initialize_core_settings`
(`current_value` starts equal to `default_value` via `_add_setting`,
`last_modified = 0`, `modified_by = "system"`). -/
def mkSetting (id name description : String) (stype : SettingType)
    (dflt : PyVal) (choices : List String) (minV maxV : Option Rat)
    (restart : Bool) (keywords : List String) : SettingDef :=
  { id := id, name := name, description := description, stype := stype
    defaultValue := dflt, currentValue := dflt, choices := choices
    minValue := minV, maxValue := maxV, requiresRestart := restart
    component := Option.none, keywords := keywords
    lastModified := 0, modifiedBy := "system" }

/-- The sixteen core settings of `_initialize_core_settings`, in
insertion order. -/
def coreSettings : List SettingDef :=
  [mkSetting "theme_mode" "Theme Mode" "System color theme preference"
     .choice (.str "auto") ["auto", "light", "dark"] Option.none Option.none false
     ["theme", "appearance", "dark mode", "light mode"],
   mkSetting "accent_color" "Accent Color" "Primary accent color for the interface"
     .color (.str "#1c71d8") [] Option.none Option.none false
     ["color", "accent", "theme"],
   mkSetting "wallpaper_path" "Wallpaper" "Desktop background image"
     .file (.str "~/.personalaios/wallpapers/default.jpg") [] Option.none Option.none false
     ["wallpaper", "background", "desktop"],
   mkSetting "font_size" "Font Size" "System font size scaling"
     .float (.float 1) [] (Option.some (1/2)) (Option.some 3) false
     ["font", "text", "size", "scaling"],
   mkSetting "ai_natural_language" "Natural Language Processing"
     "Enable AI-powered natural language understanding"
     .boolean (.bool true) [] Option.none Option.none false
     ["ai", "nlp", "natural language", "understanding"],
   mkSetting "ai_learning_enabled" "AI Learning"
     "Allow PersonalAIOS to learn from your usage patterns"
     .boolean (.bool true) [] Option.none Option.none false
     ["learning", "ai", "patterns", "adaptation"],
   mkSetting "ai_suggestions" "AI Suggestions"
     "Show intelligent suggestions and recommendations"
     .boolean (.bool true) [] Option.none Option.none false
     ["suggestions", "recommendations", "ai"],
   mkSetting "desktop_mode_default" "Default Desktop Mode"
     "Start PersonalAIOS in desktop mode by default"
     .boolean (.bool true) [] Option.none Option.none true
     ["desktop", "mode", "startup"],
   mkSetting "animation_speed" "Animation Speed"
     "Speed of UI animations and transitions"
     .choice (.str "normal") ["none", "fast", "normal", "slow"] Option.none Option.none false
     ["animation", "speed", "transitions"],
   mkSetting "auto_save_frequency" "Auto Save Frequency"
     "Frequency of automatic settings backup (minutes)"
     .integer (.int 30) [] (Option.some 5) (Option.some 480) false
     ["autosave", "backup", "frequency"],
   mkSetting "usage_statistics" "Usage Statistics"
     "Collect anonymous usage statistics for improvement"
     .boolean (.bool false) [] Option.none Option.none false
     ["statistics", "telemetry", "privacy", "data"],
   mkSetting "location_services" "Location Services"
     "Allow applications to access location data"
     .boolean (.bool false) [] Option.none Option.none false
     ["location", "gps", "privacy"],
   mkSetting "large_text" "Large Text"
     "Use larger text for better readability"
     .boolean (.bool false) [] Option.none Option.none false
     ["accessibility", "large text", "readability"],
   mkSetting "high_contrast" "High Contrast"
     "Use high contrast theme for better visibility"
     .boolean (.bool false) [] Option.none Option.none false
     ["accessibility", "high contrast", "visibility"],
   mkSetting "system_sounds" "System Sounds" "Enable system sound effects"
     .boolean (.bool true) [] Option.none Option.none false
     ["sounds", "audio", "effects"],
   mkSetting "notification_sounds" "Notification Sounds" "Play sounds for notifications"
     .boolean (.bool true) [] Option.none Option.none false
     ["notifications", "sounds", "alerts"]]

/-- `setting_aliases`. -/
def settingAliases : List (String × List String) :=
  [("theme", ["appearance", "look", "style", "colors"]),
   ("wallpaper", ["background", "desktop background"]),
   ("volume", ["sound", "audio", "speaker"]),
   ("brightness", ["screen brightness", "display brightness"]),
   ("wifi", ["wireless", "internet", "network"]),
   ("battery", ["power", "energy", "charging"]),
   ("keyboard", ["keys", "typing", "shortcuts"]),
   ("mouse", ["pointer", "cursor", "clicking"]),
   ("notifications", ["alerts", "popups", "messages"]),
   ("privacy", ["security", "tracking", "data"]),
   ("accessibility", ["a11y", "disability", "assistance"])]

/-- The settings manager's `intent_patterns` table, transliterated
from `IntelligentSettingsManager.__init__`. -/
def settingsIntentPatterns : List (String × List RE) :=
  [("get_setting",
    [rcat [ralts [rstr "what is", rstr "show", rstr "get"], rstr " ",
           ropt (rstr "the "), ropt (rstr "current "), rcapLazy 1, rstr " ",
           ralts [rstr "setting", rstr "value", rstr "preference"]],
     rcat [ralts [rstr "current", rstr "show me"], rstr " ", rcapLazy 1, rstr " ",
           ralts [rstr "setting", rstr "value"]],
     rcat [ralts [rstr "value of", rstr "check"], rstr " ", rcapLazy 1, rstr " ",
           ralts [rstr "setting", rstr "preference"]],
     rcat [rcapLazy 1, rstr " ",
           ralts [rstr "setting", rstr "preference", rstr "value"]]]),
   ("set_setting",
    [rcat [ralts [rstr "set", rstr "change"], rstr " ", ropt (rstr "the "),
           rcapLazy 1, rstr " ", ralts [rstr "to", rstr "as"], rstr " ", rcapAll 2],
     rcat [ralts [rstr "make", rstr "configure"], rstr " ", ropt (rstr "the "),
           rcapLazy 1, rstr " ", ralts [rstr "to be", rstr "as"], rstr " ", rcapAll 2],
     rcat [ralts [rstr "update", rstr "modify"], rstr " ", ropt (rstr "the "),
           rcapLazy 1, rstr " ", ralts [rstr "setting", rstr "value"], rstr " ",
           ralts [rstr "to", rstr "as"], rstr " ", rcapAll 2],
     rcat [rcapLazy 1, rstr " ", ralts [rstr "should be", rstr "to"], rstr " ",
           rcapAll 2]]),
   ("reset_setting",
    [rcat [ralts [rstr "reset", rstr "restore"], rstr " ", ropt (rstr "the "),
           rcapLazy 1, rstr " ",
           ralts [rstr "setting", rstr "preference", rstr "value"]],
     rcat [ralts [rstr "default", rstr "original"], rstr " ",
           ropt (ralts [rstr "value for ", rstr "setting for "]), rcapAll 1],
     rcat [ralts [rstr "set", rstr "change"], rstr " ", rcapLazy 1, rstr " ",
           ralts [rstr "back to", rstr "to"], rstr " ",
           ralts [rstr "default", rstr "original"]]]),
   ("list_settings",
    [rcat [ralts [rstr "list", rstr "show"], rstr " ", ropt (rstr "all "),
           ropt (rstr "the "), rcapLazy 1, rstr " settings"],
     rcat [ralts [rstr "what", rstr "which"], rstr " ", rcapLazy 1,
           rstr " settings ",
           ralts [rstr "are there", rstr "exist", rstr "available"]],
     rcat [ralts [rstr "settings for", rstr "configure"], rstr " ", rcapLazy 1],
     rcat [rcapLazy 1, rstr " ",
           ralts [rstr "configuration", rstr "preferences", rstr "options"]]]),
   ("search_settings",
    [rcat [ralts [rstr "find", rstr "search", rstr "locate"], rstr " ",
           ropt (rcat [rstr "settings ", ralts [rstr "for", rstr "about"],
                       rstr " "]), rcapAll 1],
     rcat [ralts [rstr "settings", rstr "options"], rstr " ",
           ralts [rstr "related to", rstr "about", rstr "for"], rstr " ", rcapAll 1],
     rcat [rstr "how to ", ralts [rstr "change", rstr "configure", rstr "set"],
           rstr " ", rcapAll 1]]),
   ("backup_settings",
    [rcat [ralts [rstr "backup", rstr "save", rstr "export"], rstr " ",
           ropt (rstr "all "), ropt (rstr "my "), rstr "settings"],
     rcat [ralts [rstr "create", rstr "make"], rstr " ", ropt (rstr "a "),
           ralts [rstr "backup", rstr "copy"], rstr " of ", ropt (rstr "my "),
           rstr "settings"],
     rcat [ralts [rstr "save", rstr "store"], rstr " ", ropt (rstr "current "),
           rstr "configuration"]]),
   ("restore_settings",
    [rcat [ralts [rstr "restore", rstr "load", rstr "import"], rstr " ",
           ralts [rstr "settings", rstr "configuration", rstr "backup"]],
     rcat [ralts [rstr "revert to", rstr "go back to"], rstr " ",
           ralts [rstr "previous", rstr "saved", rstr "backup"], rstr " settings"],
     rcat [ralts [rstr "undo", rstr "rollback"], rstr " ",
           ropt (rstr "settings "), rstr "changes"]]),
   ("category_settings",
    [rcat [ralts [rstr "show", rstr "list", rstr "display"], rstr " ",
           rcapLazy 1, rstr " category settings"],
     rcat [ropt (rstr "all "), rcapLazy 1, rstr " ",
           ralts [rstr "settings", rstr "preferences", rstr "options"]],
     rcat [ralts [rstr "configure", rstr "modify"], rstr " ", rcapLazy 1,
           rstr " ", ralts [rstr "settings", rstr "preferences"]]]),
   ("setting_info",
    [rcat [ralts [rstr "info", rstr "information", rstr "details", rstr "help"],
           rstr " ", ralts [rstr "about", rstr "for"], rstr " ", rcapLazy 1,
           rstr " ", ralts [rstr "setting", rstr "preference"]],
     rcat [ralts [rstr "what does", rstr "explain"], rstr " ", rcapLazy 1,
           rstr " ", ralts [rstr "setting", rstr "preference", rstr "option"]],
     rcat [ralts [rstr "help with", rstr "describe"], rstr " ", rcapLazy 1,
           rstr " ", ralts [rstr "setting", rstr "preference"]]]),
   ("apply_profile",
    [rcat [ralts [rstr "apply", rstr "use", rstr "load"], rstr " ", rcapLazy 1,
           rstr " ", ralts [rstr "profile", rstr "preset", rstr "template"]],
     rcat [ralts [rstr "set", rstr "configure"], rstr " ", ropt (rstr "system "),
           ralts [rstr "as", rstr "to"], rstr " ", rcapLazy 1, rstr " ",
           ralts [rstr "profile", rstr "mode"]],
     rcat [ralts [rstr "switch to", rstr "enable"], rstr " ", rcapLazy 1,
           rstr " ", ralts [rstr "profile", rstr "mode", rstr "preset"]]])]

/-- The filler alternation of
`IntelligentSettingsManager._preprocess_text`. -/
def settingsFillers : List (List (List Char)) :=
  [["please".data], ["can".data, "you".data], ["would".data, "you".data],
   ["could".data, "you".data], ["i".data, "want".data, "to".data]]

/-- `IntelligentSettingsManager._preprocess_text`: word-boundary
filler removal, whitespace collapsing, strip, lower. -/
def settingsPreprocess (l : List Char) : List Char :=
  pyLower (pyStrip (collapseWs (subFillersWB settingsFillers l)))

/-- Entities built by
`IntelligentSettingsManager._extract_intent_and_entities`. -/
structure SettingsEntities where
  groups : List (Option (List Char))
  context : List (String × String)
  settingTarget : Option (List Char)
deriving DecidableEq, Repr

/-- `IntelligentSettingsManager._extract_context`. -/
def settingsExtractContext (text : List Char) : List (String × String) :=
  let hit := fun (ws : List String) => ws.any fun w => containsSub text w.data
  (if hit ["urgent", "now", "immediately", "asap"] then [("urgency", "high")] else [])
  ++ (if hit ["all", "everything", "global"] then [("scope", "global")]
      else if hit ["current", "this", "local"] then [("scope", "local")] else [])
  ++ (if hit ["backup", "save", "store"] then [("action_type", "backup")]
      else if hit ["restore", "load", "revert"] then [("action_type", "restore")]
      else [])

/-- `IntelligentSettingsManager._determine_setting_target`: the first
captured group, stripped, when present and non-empty. -/
def determineSettingTarget (groups : List (Option (List Char))) : Option (List Char) :=
  match groups.head? with
  | Option.some (Option.some g) => if g = [] then Option.none else Option.some (pyStrip g)
  | _ => Option.none

/-- `IntelligentSettingsManager._extract_intent_and_entities`. -/
def settingsExtract (text : List Char) : Option (String × SettingsEntities) :=
  (extractIntent settingsIntentPatterns text).map fun ig =>
    (ig.1, ⟨ig.2, settingsExtractContext text, determineSettingTarget ig.2⟩)

/-- Lower-cased view of a `String`. -/
def lowerS (s : String) : String := ⟨pyLower s.data⟩

/-- `IntelligentSettingsManager._find_setting_by_name`: exact id,
exact name, partial name, keyword substring, then alias pass, each
scanning the settings in insertion order. -/
def findSettingByName (settings : List SettingDef) (name : String) : Option SettingDef :=
  let nl : String := ⟨pyStrip (pyLower name.data)⟩
  match settings.find? (fun d => d.id = nl) with
  | some d => some d
  | none =>
  match settings.find? (fun d => lowerS d.name = nl) with
  | some d => some d
  | none =>
  match settings.find? (fun d => containsSub (pyLower d.name.data) nl.data) with
  | some d => some d
  | none =>
  match settings.find? (fun d =>
      d.keywords.any fun k => containsSub (pyLower k.data) nl.data) with
  | some d => some d
  | none =>
    settingAliases.findSome? fun ma =>
      if ma.2.contains nl || ma.2.any (fun a => containsSub nl.data a.data) then
        settings.find? fun d =>
          containsSub (pyLower d.name.data) ma.1.data
          || d.keywords.any (fun k => lowerS k = ma.1)
      else none

/-- Python `int(str)` on an (already stripped) decimal literal with an
optional sign. -/
def pyParseInt (s : String) : Option Int :=
  let t := pyStrip s.data
  let core := match t with
    | '-' :: rest => rest
    | '+' :: rest => rest
    | rest => rest
  if core ≠ [] ∧ core.all (fun c => '0' ≤ c && c ≤ '9') then
    let n : Nat := core.foldl (fun acc c => acc * 10 + (c.toNat - 48)) 0
    some (if t.head? = some '-' then -(n : Int) else (n : Int))
  else none

/-- Python `float(str)` on an (already stripped) plain decimal
literal; scientific notation, which no claim exercises, is rejected. -/
def pyParseFloat (s : String) : Option Rat :=
  let t := pyStrip s.data
  let core := match t with
    | '-' :: rest => rest
    | '+' :: rest => rest
    | rest => rest
  let isDigit := fun (c : Char) => '0' ≤ c && c ≤ '9'
  let intPart := core.takeWhile isDigit
  let rest := core.drop intPart.length
  let fracPart := match rest with
    | '.' :: fr => some fr
    | [] => some []
    | _ => none
  match fracPart with
  | some fr =>
    if (intPart ≠ [] ∨ fr ≠ []) ∧ fr.all isDigit then
      let num : Nat := (intPart ++ fr).foldl (fun acc c => acc * 10 + (c.toNat - 48)) 0
      let q : Rat := (num : Rat) / ((10 : Rat) ^ fr.length)
      some (if t.head? = some '-' then -q else q)
    else none
  | none => none

/-- Rendering used for the "Options: ..." part of choice errors. -/
def joinComma : List String → String
  | [] => ""
  | [s] => s
  | s :: rest => s ++ ", " ++ joinComma rest

/-- `IntelligentSettingsManager._validate_and_convert_value`.
`fsExists` abstracts the filesystem probe used by the `FILE` and
`DIRECTORY` branches (no verified claim reaches them). -/
def validateAndConvertValue (fsExists : String → Bool) (d : SettingDef)
    (valueStr : List Char) : Except PyExn PyVal :=
  let v : String := ⟨pyStrip valueStr⟩
  match d.stype with
  | .boolean =>
    if ["true", "yes", "on", "enabled", "1"].contains (lowerS v) then .ok (.bool true)
    else if ["false", "no", "off", "disabled", "0"].contains (lowerS v) then
      .ok (.bool false)
    else .error "Boolean value must be true/false, yes/no, on/off, enabled/disabled, or 1/0"
  | .integer =>
    match pyParseInt v with
    | some n =>
      match d.minValue with
      | some mn =>
        if (n : Rat) < mn then .error ("Value must be at least " ++ toString mn)
        else match d.maxValue with
          | some mx =>
            if mx < (n : Rat) then .error ("Value must be at most " ++ toString mx)
            else .ok (.int n)
          | none => .ok (.int n)
      | none =>
        match d.maxValue with
        | some mx =>
          if mx < (n : Rat) then .error ("Value must be at most " ++ toString mx)
          else .ok (.int n)
        | none => .ok (.int n)
    | none => .error ("Invalid integer value: " ++ v)
  | .float =>
    match pyParseFloat ⟨pyReplace "%".data [] v.data⟩ with
    | some q =>
      match d.minValue with
      | some mn =>
        if q < mn then .error ("Value must be at least " ++ toString mn)
        else match d.maxValue with
          | some mx =>
            if mx < q then .error ("Value must be at most " ++ toString mx)
            else .ok (.float q)
          | none => .ok (.float q)
      | none =>
        match d.maxValue with
        | some mx =>
          if mx < q then .error ("Value must be at most " ++ toString mx)
          else .ok (.float q)
        | none => .ok (.float q)
    | none => .error ("Invalid number value: " ++ v)
  | .choice =>
    if d.choices.isEmpty then .ok (.str v)
    else if d.choices.contains v then .ok (.str v)
    else
      match d.choices.find? (fun c => lowerS c = lowerS v) with
      | some c => .ok (.str c)
      | none =>
        match d.choices.filter (fun c => containsSub (pyLower c.data) (pyLower v.data)) with
        | [c] => .ok (.str c)
        | [] => .error ("Invalid choice " ++ apos ++ v ++ apos ++ ". Options: "
                        ++ joinComma d.choices)
        | cs => .error ("Ambiguous choice " ++ apos ++ v ++ apos ++ ". Options: "
                        ++ joinComma cs)
  | .color =>
    if v.data.head? = some '#' ∧ (v.length = 4 ∨ v.length = 7)
        ∧ (v.data.drop 1).all (fun c =>
             ('0' ≤ c && c ≤ '9') || ('a' ≤ c && c ≤ 'f') || ('A' ≤ c && c ≤ 'F')) then
      .ok (.str v)
    else .error "Invalid color format. Use hex format like #ff0000 or #f00"
  | .file =>
    if fsExists v then .ok (.str v) else .error ("File does not exist: " ++ v)
  | .directory =>
    if fsExists v then .ok (.str v) else .error ("Directory does not exist: " ++ v)
  | _ => .ok (.str v)

/-- `IntelligentSettingsManager._format_value_by_type` for the value
shapes that occur here. -/
def formatValueByType (t : SettingType) (v : PyVal) : String :=
  match t, v with
  | .boolean, .bool b => if b then "✅ Enabled" else "❌ Disabled"
  | _, .str s => s
  | _, .int n => toString n
  | _, .float q => toString q
  | _, .bool b => if b then "True" else "False"
  | _, .none => "None"

/-- The settings-manager state: the ordered settings map and the
modelled `settings.json` contents (`Option.none` = no file yet).  The
registered `components` mapping stays empty in every claim, so a
name list suffices. -/
structure SettingsState where
  settings : List SettingDef
  disk : Option (List (String × PyVal × Rat × String))
  components : List String

/-- `IntelligentSettingsManager._save_settings`: serialise
`(current_value, last_modified, modified_by)` per setting id.  All
stored values are JSON-native (`json.dump`'s `default=str` never
fires for settings), so the JSON text is modelled by the entry list
itself. -/
def saveSettings (st : SettingsState) : SettingsState :=
  { st with disk := some (st.settings.map fun d =>
      (d.id, d.currentValue, d.lastModified, d.modifiedBy)) }

/-- Apply one stored entry, as the loop body of `_load_settings` does:
ids absent from the live table are ignored. -/
def loadOneSetting (settings : List SettingDef) (e : String × PyVal × Rat × String) :
    List SettingDef :=
  settings.map fun d =>
    if d.id = e.1 then
      { d with currentValue := e.2.1, lastModified := e.2.2.1, modifiedBy := e.2.2.2 }
    else d

/-- `IntelligentSettingsManager._load_settings`. -/
def loadSettings (st : SettingsState) : SettingsState :=
  match st.disk with
  | none => st
  | some entries => { st with settings := entries.foldl loadOneSetting st.settings }

/-- A freshly constructed `IntelligentSettingsManager` over a given
disk: `_initialize_core_settings` then `_load_settings`. -/
def freshSettingsState (disk : Option (List (String × PyVal × Rat × String))) :
    SettingsState :=
  loadSettings { settings := coreSettings, disk := disk, components := [] }

/-- `IntelligentSettingsManager._apply_setting_to_component`: the
component hook is external (and every core setting has `component =
None`), so the state is unchanged. -/
def applySettingToComponent (st : SettingsState) (_d : SettingDef) : SettingsState := st

/-- `IntelligentSettingsManager._handle_set_setting`. -/
def handleSetSetting (fsExists : String → Bool) (now : Rat)
    (e : SettingsEntities) (st : SettingsState) : Except PyExn (String × SettingsState) :=
  match e.groups with
  | (some g1) :: (some g2) :: _ =>
    let settingName : String := ⟨pyStrip g1⟩
    let newValue := pyStrip g2
    match findSettingByName st.settings settingName with
    | none => .ok ("🔍 **Setting not found:** " ++ apos ++ settingName ++ apos, st)
    | some d =>
      match validateAndConvertValue fsExists d newValue with
      | .error msg => .ok ("❌ **Invalid value:** " ++ msg, st)
      | .ok validated =>
        let oldValue := d.currentValue
        let d' := { d with currentValue := validated, lastModified := now,
                           modifiedBy := "user" }
        let updated := st.settings.map (fun x => if x.id = d.id then d' else x)
        let st' := { st with settings := updated }
        let st'' := saveSettings (applySettingToComponent st' d')
        let response := "✅ **Updated " ++ d.name ++ ":** "
          ++ formatValueByType d.stype validated ++ "\n"
        let response := if oldValue ≠ validated then
            response ++ "   └─ Previous value: " ++ formatValueByType d.stype oldValue
              ++ "\n"
          else response
        let response := if d.requiresRestart then
            response ++ "   └─ ⚠️ Restart required to apply changes\n"
          else response
        .ok (response, st'')
  | _ => .ok ("⚙️ **Please specify setting name and value**\n\n**Examples:** set theme to dark, change volume to 75%, make AI learning true", st)

/-- The ten handler slots dispatched by `_execute_settings_intent`. -/
structure SettingsHandlers where
  getSetting : SettingsEntities → SettingsState → Except PyExn (String × SettingsState)
  setSetting : SettingsEntities → SettingsState → Except PyExn (String × SettingsState)
  resetSetting : SettingsEntities → SettingsState → Except PyExn (String × SettingsState)
  listSettings : SettingsEntities → SettingsState → Except PyExn (String × SettingsState)
  searchSettings : SettingsEntities → SettingsState → Except PyExn (String × SettingsState)
  backupSettings : SettingsEntities → SettingsState → Except PyExn (String × SettingsState)
  restoreSettings : SettingsEntities → SettingsState → Except PyExn (String × SettingsState)
  categorySettings : SettingsEntities → SettingsState → Except PyExn (String × SettingsState)
  settingInfo : SettingsEntities → SettingsState → Except PyExn (String × SettingsState)
  applyProfile : SettingsEntities → SettingsState → Except PyExn (String × SettingsState)

/-- The body of `_execute_settings_intent`: the `if/elif` chain before
the surrounding `try`. -/
def settingsDispatch (h : SettingsHandlers) (intent : String) (e : SettingsEntities)
    (st : SettingsState) : Except PyExn (String × SettingsState) :=
  if intent = "get_setting" then h.getSetting e st
  else if intent = "set_setting" then h.setSetting e st
  else if intent = "reset_setting" then h.resetSetting e st
  else if intent = "list_settings" then h.listSettings e st
  else if intent = "search_settings" then h.searchSettings e st
  else if intent = "backup_settings" then h.backupSettings e st
  else if intent = "restore_settings" then h.restoreSettings e st
  else if intent = "category_settings" then h.categorySettings e st
  else if intent = "setting_info" then h.settingInfo e st
  else if intent = "apply_profile" then h.applyProfile e st
  else .ok ("⚙️ **Intent recognized** (" ++ intent ++ ") but implementation pending", st)

/-- `IntelligentSettingsManager._execute_settings_intent`: dispatch
chain under the blanket `try/except`. -/
def settingsExecuteIntent (h : SettingsHandlers) (intent : String)
    (e : SettingsEntities) (st : SettingsState) : String × SettingsState :=
  match settingsDispatch h intent e st with
  | .ok r => r
  | .error ex => ("❌ **Settings management error:** " ++ ex, st)

/-- A handler slot not dispatched to by any verified claim; its real
body only reads state and formats text (or performs external backup
I/O).  It returns a fixed placeholder response. -/
def settingsExternalHandler (msg : String) :
    SettingsEntities → SettingsState → Except PyExn (String × SettingsState) :=
  fun _ st => .ok (msg, st)

/-- The concrete handler assignment of `IntelligentSettingsManager`:
`_handle_set_setting` is embedded in full. -/
def settingsRealHandlers (fsExists : String → Bool) (now : Rat) : SettingsHandlers :=
  { getSetting := settingsExternalHandler "get_setting"
    setSetting := handleSetSetting fsExists now
    resetSetting := settingsExternalHandler "reset_setting"
    listSettings := settingsExternalHandler "list_settings"
    searchSettings := settingsExternalHandler "search_settings"
    backupSettings := settingsExternalHandler "backup_settings"
    restoreSettings := settingsExternalHandler "restore_settings"
    categorySettings := settingsExternalHandler "category_settings"
    settingInfo := settingsExternalHandler "setting_info"
    applyProfile := settingsExternalHandler "apply_profile" }

/-- `IntelligentSettingsManager._handle_unknown_intent`'s help text. -/
def settingsHelpText (u : String) : String :=
  "❓ **I didn" ++ apos ++ "t understand:** \"" ++ u ++ "\"\n\n⚙️ **Try these natural language settings commands:**\n\n**Get Settings:**\n• \"theme setting\" - Check current theme\n• \"current wallpaper\" - Show wallpaper setting\n• \"AI learning setting\" - Check AI learning status\n\n**Change Settings:**\n• \"set theme to dark\" - Change theme mode\n• \"make AI learning true\" - Enable AI learning\n• \"change volume to 75%\" - Set volume level\n\n**Settings Management:**\n• \"list appearance settings\" - Show category settings\n• \"search privacy settings\" - Find privacy options\n• \"reset theme setting\" - Restore default value\n\n**Backup & Restore:**\n• \"backup settings\" - Save current configuration\n• \"restore settings\" - Load from backup\n\n**Profiles:**\n• \"apply dark mode profile\" - Use predefined profile\n• \"use accessibility profile\" - Apply accessibility settings\n\n**I understand natural language - speak naturally!** 🤖"

/-- `IntelligentSettingsManager.process_command` (the command-history
append, which no later step reads in any claim, is not tracked). -/
def settingsProcessCommand (fsExists : String → Bool) (now : Rat)
    (st : SettingsState) (userInput : String) : String × SettingsState :=
  let cleaned := settingsPreprocess userInput.data
  match settingsExtract cleaned with
  | none => (settingsHelpText userInput, st)
  | some ie => settingsExecuteIntent (settingsRealHandlers fsExists now) ie.1 ie.2 st

/-- The current value recorded for a setting id. -/
def currentValueOf (st : SettingsState) (sid : String) : Option PyVal :=
  (st.settings.find? (fun d => d.id = sid)).map (·.currentValue)

/-!
## `application_launcher.py`: `IntelligentApplicationLauncher`
-/

/-- `SmartApplication` (the fields consulted by the embedded
operations; `desktop_file`, `metadata`, `last_used` and
`confidence_score` are only touched by launching/persistence code that
stays external to the model). -/
structure SmartApplication where
  id : String
  name : String
  description : String
  executable : String
  categories : List String
  keywords : List String
  usageCount : Nat
  isFavorite : Bool
deriving DecidableEq, Repr

/-- The launcher state: discovered applications (in insertion order)
plus the auto-generated configuration values that the embedded
operations read (`fuzzy_matching_threshold = 0.6`,
`max_suggestions = 10`, `sort_by_usage` preference). -/
structure LauncherState where
  apps : List SmartApplication
  fuzzyThreshold : Rat
  maxSuggestions : Nat
  sortByUsage : Bool

/-- A launcher over a given application list with the auto-generated
configuration of `_initialize_dynamic_config`. -/
def mkLauncher (apps : List SmartApplication) : LauncherState :=
  { apps := apps, fuzzyThreshold := 3/5, maxSuggestions := 10, sortByUsage := true }

/-- The generated base pattern table of
`_initialize_dynamic_patterns` (fresh environment: no saved
`patterns.yaml`), transliterated pattern by pattern. -/
def launcherPatterns : List (String × List RE) :=
  [("launch",
    [rcat [ralts [rstr "open", rstr "launch", rstr "start", rstr "run",
                  rstr "execute"], rplus .wsc, rcapAll 1],
     rcat [ropt (rcat [.lit 'i', rplus .wsc, rstr "want", rplus .wsc, rstr "to",
                       rplus .wsc]),
           ralts [rstr "use", rstr "open", rstr "start"], rplus .wsc, rcapAll 1],
     rcat [rcapLazy 1, ropt (rcat [rplus .wsc, rstr "please"]), .eos]]),
   ("search",
    [rcat [ralts [rstr "find", rstr "search",
                  rcat [rstr "look", rplus .wsc, rstr "for"], rstr "locate"],
           rplus .wsc, ropt (rcat [.lit 'a', ropt (.lit 'n'), rplus .wsc]),
           ralts [rstr "app", rstr "application", rstr "program"], rplus .wsc,
           ropt (rcat [rstr "for", rplus .wsc]), rcapAll 1],
     rcat [ropt (rcat [rstr "what", rplus .wsc]),
           ralts [rstr "apps", rstr "applications", rstr "programs"], rplus .wsc,
           ropt (rcat [rstr "do", rplus .wsc, .lit 'i', rplus .wsc, rstr "have",
                       rplus .wsc]),
           ropt (rcat [rstr "for", rplus .wsc]), rcapAll 1],
     rcat [ropt (rcat [rstr "show", rplus .wsc, rstr "me", rplus .wsc]),
           ralts [rstr "apps", rstr "applications"], rplus .wsc,
           ropt (rcat [rstr "that", rplus .wsc]),
           ropt (rcat [rstr "can", rplus .wsc]), rcapAll 1]]),
   ("list",
    [rcat [ralts [rstr "list", rstr "show"], rplus .wsc,
           ropt (rcat [rstr "all", rplus .wsc]), ropt (rcat [rstr "my", rplus .wsc]),
           ralts [rstr "apps", rstr "applications", rstr "programs"]],
     rcat [ropt (rcat [rstr "what", rplus .wsc]),
           ralts [rstr "apps", rstr "applications", rstr "programs"], rplus .wsc,
           ralts [rcat [rstr "do", rplus .wsc, .lit 'i', rplus .wsc, rstr "have"],
                  rcat [rstr "are", rplus .wsc, rstr "installed"]]],
     rcat [ralts [rstr "display", rcat [rstr "show", rplus .wsc, rstr "me"]],
           rplus .wsc, ropt (rcat [rstr "installed", rplus .wsc]),
           ralts [rstr "apps", rstr "applications"]]])]

/-- The filler phrases removed (one `re.sub` each, literal spaces) by
`_preprocess_input`. -/
def launcherFillers : List (List Char) :=
  ["please".data, "can you".data, "would you".data, "could you".data,
   "i want to".data, "help me".data]

/-- `IntelligentApplicationLauncher._preprocess_input`. -/
def launcherPreprocess (l : List Char) : List Char :=
  pyLower (pyStrip (collapseWs (launcherFillers.foldl (fun t ph => subPhraseWB ph t) l)))

/-- Entities built by `_extract_intent_dynamically` (the computed
`confidence` value is never read anywhere, and is omitted). -/
structure LauncherEntities where
  target : Option (List Char)
  originalText : List Char
deriving DecidableEq, Repr

/-- `IntelligentApplicationLauncher._extract_intent_dynamically` (the
per-pattern `try/except` never fires: every generated pattern
compiles). -/
def launcherExtract (text : List Char) : Option (String × LauncherEntities) :=
  (extractIntent launcherPatterns text).map fun ig =>
    (ig.1, ⟨(ig.2.head?).bind id, text⟩)

/-- `_calculate_similarity`: equality, then substring containment,
then character-set Jaccard similarity (exact rational arithmetic in
place of Python floats). -/
def calcSimilarity (s1 s2 : List Char) : Rat :=
  if s1 = s2 then 1
  else if containsSub s2 s1 || containsSub s1 s2 then 4/5
  else
    let set1 := s1.dedup
    let set2 := s2.dedup
    let inter := (set1.filter (fun c => set2.contains c)).length
    let uni := (set1 ++ set2).dedup.length
    if uni = 0 then 0 else (inter : Rat) / (uni : Rat)

/-- `IntelligentApplicationLauncher._find_app_fuzzy`: exact
(case-insensitive) name, then name substring, then keyword substring,
then best Jaccard score at or above the configured threshold. -/
def findAppFuzzy (st : LauncherState) (query : String) : Option SmartApplication :=
  let ql := pyStrip (pyLower query.data)
  match st.apps.find? (fun a => pyLower a.name.data = ql) with
  | some a => some a
  | none =>
  match st.apps.find? (fun a => containsSub (pyLower a.name.data) ql) with
  | some a => some a
  | none =>
  match st.apps.find? (fun a =>
      a.keywords.any fun k => containsSub (pyLower k.data) ql) with
  | some a => some a
  | none =>
    (st.apps.foldl (fun acc a =>
      let score := calcSimilarity ql (pyLower a.name.data)
      if acc.1 < score ∧ st.fuzzyThreshold ≤ score then (score, some a) else acc)
      ((0 : Rat), Option.none)).2

/-- Stable insertion into a list sorted by `le`: the new element goes
after existing elements it ties with. -/
def insertSorted (le : α → α → Bool) (x : α) : List α → List α
  | [] => [x]
  | y :: ys => if le y x then y :: insertSorted le x ys else x :: y :: ys

/-- Stable sort (insertion sort), modelling Python's stable
`list.sort`. -/
def pySortBy (le : α → α → Bool) (l : List α) : List α :=
  l.foldl (fun acc x => insertSorted le x acc) []

/-- `_find_similar_apps`: all apps scoring above `0.3`, best first
(stable sort, like Python's), truncated to `max_suggestions`. -/
def findSimilarApps (st : LauncherState) (query : String) : List SmartApplication :=
  let ql := pyLower query.data
  let scored := (st.apps.map fun a => (a, calcSimilarity ql (pyLower a.name.data))).filter
    fun p => (3 : Rat)/10 < p.2
  ((pySortBy (fun p q => q.2 ≤ p.2) scored).map (·.1)).take st.maxSuggestions

/-- `_search_applications` relevance scoring. -/
def searchAppScore (ql : List Char) (a : SmartApplication) : Nat :=
  (if containsSub (pyLower a.name.data) ql then 10 else 0)
  + (if containsSub (pyLower a.description.data) ql then 5 else 0)
  + (if a.keywords.any (fun k => containsSub (pyLower k.data) ql) then 8 else 0)
  + (if a.categories.any (fun c => containsSub (pyLower c.data) ql) then 6 else 0)
  + (if containsSub (pyLower a.executable.data) ql then 4 else 0)
  + (if 0 < a.usageCount then min a.usageCount 5 else 0)

/-- `IntelligentApplicationLauncher._search_applications`. -/
def searchApplications (st : LauncherState) (query : String) : List SmartApplication :=
  let ql := pyLower query.data
  let scored := (st.apps.map fun a => (a, searchAppScore ql a)).filter fun p => 0 < p.2
  (pySortBy (fun p q => q.2 ≤ p.2) scored).map (·.1)

/-- `_launch_application` runs subprocesses and mutates usage
statistics; it is external to the model.  No verified claim reaches it
(the exercised scenario has no applications), so it stands in as a
fixed response. -/
def launchApplication (st : LauncherState) (a : SmartApplication) :
    String × LauncherState :=
  ("🚀 **Launched " ++ a.name ++ "**", st)

/-- `_format_suggestions` (reached only with a non-empty suggestion
list; the icon lookup `_get_app_icon`, pure string decoration, is
abbreviated to its default `📱`). -/
def formatSuggestions (query : String) (suggestions : List SmartApplication) : String :=
  let header := "🔍 **Application not found:** " ++ apos ++ query ++ apos ++ "\n\n"
  if suggestions.isEmpty then header
  else
    header ++ "**Did you mean:**\n"
      ++ String.join ((suggestions.take 5).map fun a =>
           "📱 **" ++ a.name ++ "** - Try: " ++ apos ++ "open " ++ a.name ++ apos ++ "\n")

/-- `_get_launch_help`. -/
def getLaunchHelp : String :=
  "🚀 **Application Launcher Help**\n\n**Launch Applications:**\n• \"open [app name]\" - Launch any application\n• \"start Firefox\" - Launch Firefox browser\n• \"run terminal\" - Open terminal\n\n**Search Applications:**\n• \"find video editor\" - Search for video editing apps\n• \"search games\" - Find gaming applications\n\n**List Applications:**\n• \"list applications\" - Show all installed apps\n• \"show my apps\" - Display available applications\n\n**Examples:**\n• \"open calculator\"\n• \"launch text editor\"\n• \"find music player\"\n• \"list all apps\"\n\n**💡 Just say " ++ apos ++ "open [app name]" ++ apos ++ " to launch any application!**"

/-- `_generate_help_response`. -/
def launcherHelpResponse (u : String) : String :=
  "❓ **I didn" ++ apos ++ "t understand:** \"" ++ u ++ "\"\n\n" ++ getLaunchHelp
    ++ "\n\n**🤖 I learn from your commands - the more you use me, the better I get!**"

/-- `IntelligentApplicationLauncher._handle_launch`. -/
def handleLaunch (st : LauncherState) (e : LauncherEntities) : String × LauncherState :=
  let target : String := ⟨pyStrip (e.target.getD [])⟩
  if target = "" then (getLaunchHelp, st)
  else
    match findAppFuzzy st target with
    | some app => launchApplication st app
    | none =>
      match findSimilarApps st target with
      | [] => ("🔍 **Application not found:** " ++ apos ++ target ++ apos
               ++ "\n\nTry " ++ apos ++ "list applications" ++ apos
               ++ " to see what" ++ apos ++ "s available.", st)
      | suggestions => (formatSuggestions target suggestions, st)

/-- `_format_search_results` (reached only with non-empty results;
icon decoration abbreviated as in `formatSuggestions`). -/
def formatSearchResults (query : String) (results : List SmartApplication) : String :=
  "🔍 **Found " ++ toString results.length ++ " application(s)** for "
    ++ apos ++ query ++ apos ++ ":\n\n"
    ++ String.join ((results.take 10).map fun a =>
        "📱 **" ++ a.name ++ "**" ++ (if a.isFavorite then " ⭐" else "")
          ++ (if 0 < a.usageCount then " (used " ++ toString a.usageCount ++ "x)" else "")
          ++ "\n"
          ++ (if a.description ≠ "" then
                "   └─ " ++ String.mk (a.description.data.take 60)
                  ++ (if 60 < a.description.length then "..." else "") ++ "\n"
              else "")
          ++ "   └─ **Launch:** " ++ apos ++ "open " ++ a.name ++ apos ++ "\n\n")

/-- `IntelligentApplicationLauncher._handle_search`. -/
def handleSearch (st : LauncherState) (e : LauncherEntities) : String × LauncherState :=
  let query : String := ⟨pyStrip (e.target.getD [])⟩
  if query = "" then ("🔍 **Please specify what to search for**", st)
  else
    match searchApplications st query with
    | [] => ("🔍 **No applications found** for " ++ apos ++ query ++ apos, st)
    | results => (formatSearchResults query results, st)

/-- `_format_app_list` (reached only with a non-empty application
list; pure string decoration, abbreviated to its header). -/
def formatAppList (apps : List SmartApplication) : String :=
  "📱 **Installed Applications** (" ++ toString apps.length ++ " total):\n\n"

/-- `IntelligentApplicationLauncher._handle_list`. -/
def handleList (st : LauncherState) : String × LauncherState :=
  match st.apps with
  | [] => ("📱 **No applications discovered**\n\nTry refreshing the application cache.",
           st)
  | apps =>
    let sorted :=
      if st.sortByUsage then
        pySortBy (fun a b =>
          (b.usageCount < a.usageCount)
          || (b.usageCount = a.usageCount && decide (pyLower a.name.data ≤ pyLower b.name.data))) apps
      else pySortBy (fun a b => decide (pyLower a.name.data ≤ pyLower b.name.data)) apps
    (formatAppList sorted, st)

/-- `IntelligentApplicationLauncher.process_command` (the learning log
is write-only in every claim and is not tracked). -/
def launcherProcessCommand (st : LauncherState) (userInput : String) :
    String × LauncherState :=
  let cleaned := launcherPreprocess userInput.data
  match launcherExtract cleaned with
  | some ie =>
    if ie.1 = "launch" then handleLaunch st ie.2
    else if ie.1 = "search" then handleSearch st ie.2
    else if ie.1 = "list" then handleList st
    else
      match findAppFuzzy st userInput with
      | some app => launchApplication st app
      | none => (launcherHelpResponse userInput, st)
  | none =>
    match findAppFuzzy st userInput with
    | some app => launchApplication st app
    | none => (launcherHelpResponse userInput, st)

/-!
## `ai_file_manager.py`: `_resolve_path`
-/

/-- `IntelligentFileManager._resolve_path` over the names in the
current directory: direct existence of `cwd / filename`, then a
case-insensitive scan of `iterdir()`, then the first
`glob(f"*{filename}*")` hit (modelled as substring containment; none
of the verified inputs contain glob metacharacters). -/
def resolvePath (entries : List String) (filename : String) : Option String :=
  if entries.contains filename then some filename
  else
    match entries.find? (fun item => lowerS item = lowerS filename) with
    | some item => some item
    | none =>
      match entries.filter (fun item => containsSub item.data filename.data) with
      | [] => none
      | m :: _ => some m

/-!
## `window_manager.py`: `IntelligentWindowManager._preprocess_text`
-/

/-- The filler alternation of
`IntelligentWindowManager._preprocess_text` (same as the settings
manager's, without `i\s+want\s+to`). -/
def windowFillers : List (List (List Char)) :=
  [["please".data], ["can".data, "you".data], ["would".data, "you".data],
   ["could".data, "you".data]]

/-- `IntelligentWindowManager._preprocess_text`. -/
def windowPreprocess (l : List Char) : List Char :=
  pyLower (pyStrip (collapseWs (subFillersWB windowFillers l)))

/-!
## `workspace_manager.py`: `IntelligentWorkspaceManager` persistence
-/

/-- `WorkspaceType`. -/
inductive WorkspaceType where
  | general | development | productivity | creative | communication
  | entertainment | research | system
deriving DecidableEq, Repr

/-- The `.value` of each member. -/
def workspaceTypeValue : WorkspaceType → String
  | .general => "general"
  | .development => "development"
  | .productivity => "productivity"
  | .creative => "creative"
  | .communication => "communication"
  | .entertainment => "entertainment"
  | .research => "research"
  | .system => "system"

/-- Python's `str(enum_member)` for a plain `Enum`:
`"WorkspaceType.<NAME>"`.  This is what `json.dump(..., default=str)`
writes for the non-serialisable enum object kept by `asdict`. -/
def workspaceTypeStr (t : WorkspaceType) : String :=
  "WorkspaceType." ++ (match t with
    | .general => "GENERAL"
    | .development => "DEVELOPMENT"
    | .productivity => "PRODUCTIVITY"
    | .creative => "CREATIVE"
    | .communication => "COMMUNICATION"
    | .entertainment => "ENTERTAINMENT"
    | .research => "RESEARCH"
    | .system => "SYSTEM")

/-- The value-based constructor `WorkspaceType(s)`: succeeds only on a
member `.value`, otherwise raises `ValueError`. -/
def workspaceTypeOfValue (s : String) : Except PyExn WorkspaceType :=
  match ([WorkspaceType.general, .development, .productivity, .creative,
          .communication, .entertainment, .research, .system].find?
         (fun t => workspaceTypeValue t = s)) with
  | some t => .ok t
  | none => .error (apos ++ s ++ apos ++ " is not a valid WorkspaceType")

/-- `SmartWorkspace`. -/
structure SmartWorkspace where
  id : Int
  name : String
  workspaceType : WorkspaceType
  description : String
  applications : List String
  windowIds : List Int
  creationTime : Rat
  lastUsed : Rat
  usageCount : Int
  autoCreated : Bool
  aiSuggestedApps : Option (List String)
  persistentLayout : Bool
  backgroundImage : Option String
  colorTheme : Option String
deriving DecidableEq, Repr

/-- One workspace as serialised by `asdict` + `json.dump(...,
default=str)`: every field is JSON-native except the enum, which is
rendered through `str`. -/
structure SerializedWorkspace where
  id : Int
  name : String
  workspaceType : String
  description : String
  applications : List String
  windowIds : List Int
  creationTime : Rat
  lastUsed : Rat
  usageCount : Int
  autoCreated : Bool
  aiSuggestedApps : Option (List String)
  persistentLayout : Bool
  backgroundImage : Option String
  colorTheme : Option String
deriving DecidableEq, Repr

/-- `asdict(workspace)` under `json.dump(..., default=str)`. -/
def serializeWorkspace (w : SmartWorkspace) : SerializedWorkspace :=
  { id := w.id, name := w.name, workspaceType := workspaceTypeStr w.workspaceType
    description := w.description, applications := w.applications
    windowIds := w.windowIds, creationTime := w.creationTime
    lastUsed := w.lastUsed, usageCount := w.usageCount
    autoCreated := w.autoCreated, aiSuggestedApps := w.aiSuggestedApps
    persistentLayout := w.persistentLayout, backgroundImage := w.backgroundImage
    colorTheme := w.colorTheme }

/-- The `workspaces.json` contents (`user_preferences` and
`last_save`, which no claim reads back, are not tracked). -/
structure WsStore where
  workspaces : List (String × SerializedWorkspace)
  currentWorkspaceId : Int
  workspaceHistory : List Int
deriving DecidableEq, Repr

/-- The workspace-manager state relevant to persistence. -/
structure WsState where
  workspaces : List (Int × SmartWorkspace)
  currentWorkspaceId : Int
  workspaceHistory : List Int
  disk : Option WsStore
deriving DecidableEq, Repr

/-- `IntelligentWorkspaceManager._save_workspaces`: keys become
`str(ws_id)`, records pass through `asdict`/`default=str`. -/
def saveWorkspaces (st : WsState) : WsState :=
  let store : WsStore :=
    { workspaces := st.workspaces.map fun p => (toString p.1, serializeWorkspace p.2)
      currentWorkspaceId := st.currentWorkspaceId
      workspaceHistory := st.workspaceHistory }
  { st with disk := some store }

/-- Python `int(s)` for the stored keys. -/
def pyIntOfString (s : String) : Except PyExn Int :=
  match pyParseInt s with
  | some n => .ok n
  | none => .error ("invalid literal for int() with base 10: " ++ s)

/-- Rebuild one workspace from its stored entry, as the loop body of
`_load_workspaces` does: `int(key)`, then
`WorkspaceType(data['workspace_type'])`, then `SmartWorkspace(**data)`.
Either conversion can raise. -/
def parseWorkspaceEntry (p : String × SerializedWorkspace) :
    Except PyExn (Int × SmartWorkspace) := do
  let n ← pyIntOfString p.1
  let t ← workspaceTypeOfValue p.2.workspaceType
  .ok (n, { id := p.2.id, name := p.2.name, workspaceType := t
            description := p.2.description, applications := p.2.applications
            windowIds := p.2.windowIds, creationTime := p.2.creationTime
            lastUsed := p.2.lastUsed, usageCount := p.2.usageCount
            autoCreated := p.2.autoCreated, aiSuggestedApps := p.2.aiSuggestedApps
            persistentLayout := p.2.persistentLayout
            backgroundImage := p.2.backgroundImage, colorTheme := p.2.colorTheme })

/-- Dictionary insertion `self.workspaces[ws_id] = workspace`. -/
def assocSet (m : List (Int × SmartWorkspace)) (k : Int) (v : SmartWorkspace) :
    List (Int × SmartWorkspace) :=
  if m.any (fun p => p.1 = k) then
    m.map fun p => if p.1 = k then (k, v) else p
  else m ++ [(k, v)]

/-- The rebuild loop of `_load_workspaces`, run after
`self.workspaces.clear()`: entries are converted in order; the first
conversion error escapes the loop (leaving the entries converted so
far) and is reported. -/
def loadWorkspacesLoop : List (String × SerializedWorkspace) →
    List (Int × SmartWorkspace) → List (Int × SmartWorkspace) × Option PyExn
  | [], acc => (acc, Option.none)
  | e :: rest, acc =>
    match parseWorkspaceEntry e with
    | .ok p => loadWorkspacesLoop rest (assocSet acc p.1 p.2)
    | .error ex => (acc, some ex)

/-- `IntelligentWorkspaceManager._load_workspaces`: on success the
stored map, current id and history replace the live ones; any
exception is caught by the blanket `except`, which leaves the
partially rebuilt (post-`clear()`) dictionary in place and skips the
remaining loads. -/
def loadWorkspaces (st : WsState) : WsState :=
  match st.disk with
  | none => st
  | some store =>
    match loadWorkspacesLoop store.workspaces [] with
    | (acc, Option.none) =>
      { st with workspaces := acc
                currentWorkspaceId := store.currentWorkspaceId
                workspaceHistory := store.workspaceHistory }
    | (acc, Option.some _) => { st with workspaces := acc }

/-- The default workspace built by `_initialize_default_workspace`. -/
def defaultWorkspace (now : Rat) : SmartWorkspace :=
  { id := 1, name := "Main", workspaceType := .general
    description := "Default workspace", applications := [], windowIds := []
    creationTime := now, lastUsed := now, usageCount := 1, autoCreated := false
    aiSuggestedApps := Option.none, persistentLayout := false
    backgroundImage := Option.none, colorTheme := Option.none }

/-- A freshly constructed `IntelligentWorkspaceManager` over a given
disk: default workspace, then `_load_workspaces`. -/
def freshWsState (now : Rat) (disk : Option WsStore) : WsState :=
  loadWorkspaces { workspaces := [(1, defaultWorkspace now)]
                   currentWorkspaceId := 1, workspaceHistory := [1], disk := disk }

/-!
## Definitions supporting the theorems
-/

/-- The store entries written by `_save_settings`. -/
def settingsEntryOf (d : SettingDef) : String × PyVal × Rat × String :=
  (d.id, d.currentValue, d.lastModified, d.modifiedBy)

/-- Sequential application of stored entries to one live setting
(`loadOneSetting` lifted pointwise; see `loadSettings_as_map`). -/
def applyEntries (es : List (String × PyVal × Rat × String)) (d : SettingDef) :
    SettingDef :=
  es.foldl (fun d e =>
    if d.id = e.1 then
      { d with currentValue := e.2.1, lastModified := e.2.2.1, modifiedBy := e.2.2.2 }
    else d) d

/-- An arbitrary mutation of the persisted fields of every core
setting: every reachable settings-manager state has this shape (ids,
names, types and constraints are never mutated after
`_initialize_core_settings`). -/
def overrideSettings (f : SettingDef → PyVal) (g : SettingDef → Rat)
    (h : SettingDef → String) : List SettingDef :=
  coreSettings.map fun d =>
    { d with currentValue := f d, lastModified := g d, modifiedBy := h d }

/-- No two adjacent whitespace characters. -/
def noTwoWs : List Char → Bool
  | a :: b :: rest => !(isPyWs a && isPyWs b) && noTwoWs (b :: rest)
  | _ => true

/-!
# Theorems

## C1: the matcher is first-match, in table order
-/

/-- The matcher loop equals a single first-success scan over the
flattened `(intent, pattern)` pairs in table order. -/
theorem extractIntent_eq_pairs (table : List (String × List RE)) (text : List Char) :
    extractIntent table text
      = (tablePairs table).findSome?
          (fun q => (pySearchGroups q.2 text).map (fun g => (q.1, g))) := by
  show List.findSome?
      (fun p => List.findSome? (fun r => Option.map (fun g => (p.1, g)) (pySearchGroups r text)) p.2)
      table = _
  induction table with
  | nil => rfl
  | cons ip rest ih =>
    rw [List.findSome?_cons]
    have hr : (tablePairs (ip :: rest)).findSome?
          (fun q => (pySearchGroups q.2 text).map fun g => (q.1, g))
        = ((ip.2.findSome? fun r => (pySearchGroups r text).map fun g => (ip.1, g)).or
            ((tablePairs rest).findSome?
              (fun q => (pySearchGroups q.2 text).map fun g => (q.1, g)))) := by
      show ((ip.2.map fun r => (ip.1, r)) ++ tablePairs rest).findSome? _ = _
      rw [List.findSome?_append, List.findSome?_map]
      rfl
    rw [hr, ← ih]
    cases h : (ip.2.findSome? fun r => (pySearchGroups r text).map fun g => (ip.1, g)) with
    | none => rfl
    | some b => rfl

/-- A first-success scan returns the first element whose function
value is `some`. -/
theorem findSome?_first {α β : Type} (f : α → Option β) (l₁ l₂ : List α) (x : α) (y : β)
    (h1 : ∀ a ∈ l₁, f a = none) (h2 : f x = some y) :
    (l₁ ++ x :: l₂).findSome? f = some y := by
  induction l₁ with
  | nil => simp [List.findSome?_cons, h2]
  | cons a l ih =>
    have ha : f a = none := h1 a (by simp)
    simp only [List.cons_append, List.findSome?_cons, ha]
    exact ih fun b hb => h1 b (by simp [hb])

/-- C1.  For every normalised input text and every pattern table, the
matcher loop (`_extract_intent_and_entities` in the file, settings and
window managers; the same loop shape in the launcher) scans intents in
table-definition order and patterns in list order and returns the
first `(intent, groups())` whose pattern `re.search`-matches; an
earlier-defined pair always wins, regardless of match length,
specificity, or number of captured groups. -/
theorem claim_C1_matcher_first_match (table : List (String × List RE))
    (text : List Char) (l₁ l₂ : List (String × RE)) (i : String) (r : RE)
    (g : List (Option (List Char)))
    (hsplit : tablePairs table = l₁ ++ (i, r) :: l₂)
    (hnone : ∀ q ∈ l₁, pySearchGroups q.2 text = none)
    (hmatch : pySearchGroups r text = some g) :
    extractIntent table text = some (i, g) := by
  rw [extractIntent_eq_pairs, hsplit]
  exact findSome?_first _ _ _ _ _
    (fun a ha => by rw [hnone a ha]; rfl)
    (by rw [hmatch]; rfl)

/-- Witness for C1 on the file manager's own table: on
`"open file a"`, the 15 patterns before `open_file`'s first pattern
all fail, that pattern matches with group `"a"`, and the matcher
returns exactly that first match. -/
theorem claim_C1_witness :
    extractIntent fmIntentPatterns "open file a".data
      = some ("open_file", [some "a".data]) := by
  have hsplit : tablePairs fmIntentPatterns
      = (tablePairs fmIntentPatterns).take 15
        ++ ("open_file",
            rcat [rstr "open ", ropt (rstr "the "), rstr "file ",
                  ropt (ralts [rstr "named ", rstr "called "]), rcapAll 1])
          :: (tablePairs fmIntentPatterns).drop 16 := by rfl
  exact claim_C1_matcher_first_match fmIntentPatterns "open file a".data _ _ _ _ _
    hsplit (by decide) (by rfl)

/-!
## C5: the dispatcher catches every handler exception
-/

/-- C5.  For every recognised intent and entities dict, the intent
dispatchers (`_execute_intent` in the file manager,
`_execute_settings_intent` in the settings manager) return the
handler's result when it returns, and convert any exception it raises
into the formatted error string; in particular `process_command`
(whose only fallible step is this dispatch) never propagates a handler
exception, as the dispatchers are total functions of the handler
outcome. -/
theorem claim_C5_dispatch_catches (hF : FMHandlers) (intentF : String)
    (eF : FMEntities) (stF : FMState) (hS : SettingsHandlers) (intentS : String)
    (eS : SettingsEntities) (stS : SettingsState) :
    (∀ r, fmDispatch hF intentF eF stF = .ok r →
      fmExecuteIntent hF intentF eF stF = r)
    ∧ (∀ ex, fmDispatch hF intentF eF stF = .error ex →
      fmExecuteIntent hF intentF eF stF
        = ("❌ **Error executing " ++ intentF ++ ":** " ++ ex, stF))
    ∧ (∀ r, settingsDispatch hS intentS eS stS = .ok r →
      settingsExecuteIntent hS intentS eS stS = r)
    ∧ (∀ ex, settingsDispatch hS intentS eS stS = .error ex →
      settingsExecuteIntent hS intentS eS stS
        = ("❌ **Settings management error:** " ++ ex, stS)) := by
  refine ⟨?_, ?_, ?_, ?_⟩ <;> intro z h <;>
    first
    | (show (match fmDispatch hF intentF eF stF with
            | .ok r => r
            | .error ex => ("❌ **Error executing " ++ intentF ++ ":** " ++ ex, stF)) = _
       rw [h])
    | (show (match settingsDispatch hS intentS eS stS with
            | .ok r => r
            | .error ex => ("❌ **Settings management error:** " ++ ex, stS)) = _
       rw [h])

/-- Witness for C5: handlers that raise `"boom"` yield exactly the
formatted error strings. -/
theorem claim_C5_witness :
    fmExecuteIntent
      ⟨fun _ _ => .error "boom", fun _ _ => .error "boom", fun _ _ => .error "boom",
       fun _ _ => .error "boom", fun _ _ => .error "boom", fun _ _ => .error "boom",
       fun _ _ => .error "boom", fun _ _ => .error "boom"⟩
      "create_file" ⟨[], []⟩ ⟨"/d", []⟩
      = ("❌ **Error executing create_file:** boom", ⟨"/d", []⟩)
    ∧ settingsExecuteIntent
      ⟨fun _ _ => .error "boom", fun _ _ => .error "boom", fun _ _ => .error "boom",
       fun _ _ => .error "boom", fun _ _ => .error "boom", fun _ _ => .error "boom",
       fun _ _ => .error "boom", fun _ _ => .error "boom", fun _ _ => .error "boom",
       fun _ _ => .error "boom"⟩
      "set_setting" ⟨[], [], Option.none⟩ ⟨[], Option.none, []⟩
      = ("❌ **Settings management error:** boom", ⟨[], Option.none, []⟩) :=
  ⟨(claim_C5_dispatch_catches _ "create_file" ⟨[], []⟩ ⟨"/d", []⟩
      ⟨fun _ _ => .error "boom", fun _ _ => .error "boom", fun _ _ => .error "boom",
       fun _ _ => .error "boom", fun _ _ => .error "boom", fun _ _ => .error "boom",
       fun _ _ => .error "boom", fun _ _ => .error "boom", fun _ _ => .error "boom",
       fun _ _ => .error "boom"⟩
      "set_setting" ⟨[], [], Option.none⟩ ⟨[], Option.none, []⟩).2.1 "boom" rfl,
   (claim_C5_dispatch_catches
      ⟨fun _ _ => .error "boom", fun _ _ => .error "boom", fun _ _ => .error "boom",
       fun _ _ => .error "boom", fun _ _ => .error "boom", fun _ _ => .error "boom",
       fun _ _ => .error "boom", fun _ _ => .error "boom"⟩
      "create_file" ⟨[], []⟩ ⟨"/d", []⟩ _
      "set_setting" ⟨[], [], Option.none⟩ ⟨[], Option.none, []⟩).2.2.2 "boom" rfl⟩

/-!
## C8: the create-file scenario
-/

/-- C8.  Processing `"create a file named notes.txt"` against a file
manager rooted at a fresh empty directory creates `notes.txt` there,
and the returned string contains both `"Created file"` and
`"notes.txt"`. -/
theorem claim_C8_create_file_scenario :
    ((fmProcessCommand ⟨"/tmp/workdir", []⟩ "create a file named notes.txt").2.entries.any
       (fun p => p.1 = "notes.txt")) = true
    ∧ strContains
        (fmProcessCommand ⟨"/tmp/workdir", []⟩ "create a file named notes.txt").1
        "Created file" = true
    ∧ strContains
        (fmProcessCommand ⟨"/tmp/workdir", []⟩ "create a file named notes.txt").1
        "notes.txt" = true := by
  refine ⟨by decide, by decide, by decide⟩

/-!
## C2: "set theme to dark" is applied and persists
-/

/-- C2.  `process_command "set theme to dark"` on a fresh settings
manager sets `theme_mode`'s current value to `'dark'` and saves the
JSON store so that a freshly constructed settings manager loading the
same store recovers `'dark'`. -/
theorem claim_C2_set_theme_dark_persisted :
    currentValueOf
      (settingsProcessCommand (fun _ => false) 0 (freshSettingsState Option.none)
        "set theme to dark").2 "theme_mode" = some (.str "dark")
    ∧ currentValueOf
        (freshSettingsState
          (settingsProcessCommand (fun _ => false) 0 (freshSettingsState Option.none)
            "set theme to dark").2.disk) "theme_mode" = some (.str "dark") := by
  refine ⟨by decide, by decide⟩

/-!
## C7: "list applications" on an empty launcher (code bug)
-/

/-- C7 (divergence witness).  On a launcher with zero discovered
applications, `process_command "list applications"` is intercepted by
the `launch` intent's catch-all pattern and returns the
"Application not found" string — not the "No applications discovered"
string that the (unreachable) `_handle_list` branch would produce; no
exception is raised (the embedding is a total function). -/
theorem claim_C7_list_applications_behavior :
    (launcherProcessCommand (mkLauncher []) "list applications").1
      = "🔍 **Application not found:** " ++ apos ++ "list applications" ++ apos
        ++ "\n\nTry " ++ apos ++ "list applications" ++ apos ++ " to see what"
        ++ apos ++ "s available."
    ∧ (handleList (mkLauncher [])).1
      = "📱 **No applications discovered**\n\nTry refreshing the application cache." := by
  refine ⟨by decide, by decide⟩

/-!
## C3: save→load round trip
-/

/-- Folding the load loop over stored entries is a pointwise map. -/
theorem loadSettings_as_map (es : List (String × PyVal × Rat × String))
    (base : List SettingDef) :
    es.foldl loadOneSetting base = base.map (applyEntries es) := by
  induction es generalizing base with
  | nil =>
    show base = base.map fun d => d
    rw [List.map_id']
  | cons e rest ih =>
    show rest.foldl loadOneSetting (loadOneSetting base e) = _
    rw [ih (loadOneSetting base e)]
    show (base.map _).map _ = _
    rw [List.map_map]
    rfl

/-- The load loop never changes a setting's id. -/
theorem applyEntries_id (es : List (String × PyVal × Rat × String)) (d : SettingDef) :
    (applyEntries es d).id = d.id := by
  induction es generalizing d with
  | nil => rfl
  | cons e rest ih =>
    show (applyEntries rest (if d.id = e.1 then _ else d)).id = d.id
    rw [ih]
    by_cases h : d.id = e.1 <;> simp [h]

/-- Entries whose ids all differ from `d.id` leave `d` unchanged. -/
theorem applyEntries_skip (es : List (String × PyVal × Rat × String)) (d : SettingDef)
    (h : ∀ e ∈ es, e.1 ≠ d.id) : applyEntries es d = d := by
  induction es with
  | nil => rfl
  | cons e rest ih =>
    show applyEntries rest (if d.id = e.1 then _ else d) = d
    have hne : d.id ≠ e.1 := fun hc => h e (by simp) hc.symm
    rw [if_neg hne]
    exact ih fun x hx => h x (by simp [hx])

/-- With pairwise-distinct ids, applying the entries generated from a
source list to one of its members installs exactly that member's
entry. -/
theorem applyEntries_install (src : List SettingDef)
    (vals : SettingDef → PyVal × Rat × String) (d : SettingDef)
    (hnd : (src.map (fun x => x.id)).Nodup) (hmem : d ∈ src) :
    applyEntries (src.map fun x => (x.id, vals x)) d
      = { d with currentValue := (vals d).1, lastModified := (vals d).2.1,
                 modifiedBy := (vals d).2.2 } := by
  induction src with
  | nil => cases hmem
  | cons x xs ih =>
    have hnd' : (xs.map (fun x => x.id)).Nodup := (List.nodup_cons.mp hnd).2
    have hx : x.id ∉ xs.map (fun x => x.id) := (List.nodup_cons.mp hnd).1
    show applyEntries (xs.map fun x => (x.id, vals x)) (if d.id = x.id then _ else d) = _
    rcases List.mem_cons.mp hmem with rfl | hmem'
    · rw [if_pos rfl]
      exact applyEntries_skip _ _ fun e he => by
        obtain ⟨y, hy, rfl⟩ := List.mem_map.mp he
        exact fun hc => hx (hc ▸ List.mem_map_of_mem (fun x => x.id) hy)
    · have hne : d.id ≠ x.id := by
        intro hc
        exact hx (hc ▸ List.mem_map_of_mem (fun x => x.id) hmem')
      rw [if_neg hne]
      exact ih hnd' hmem'

/-- `find?` by id commutes with an id-preserving map. -/
theorem find?_map_id_preserved (l : List SettingDef) (h : SettingDef → SettingDef)
    (sid : String) (hid : ∀ d, (h d).id = d.id) :
    (l.map h).find? (fun d => d.id = sid) = (l.find? (fun d => d.id = sid)).map h := by
  induction l with
  | nil => rfl
  | cons d rest ih =>
    show List.find? _ (h d :: rest.map h) = _
    rw [List.find?_cons, List.find?_cons, hid d]
    cases decide (d.id = sid)
    · exact ih
    · rfl

/-- Save→load on a settings table with pairwise-distinct ids
reproduces every current value (stated over an arbitrary table; the
manager instantiates it with `coreSettings`). -/
theorem settings_roundtrip_aux (base : List SettingDef) (f : SettingDef → PyVal)
    (g : SettingDef → Rat) (h : SettingDef → String) (sid : String)
    (hnd : (base.map (fun x => x.id)).Nodup) :
    ((((base.map (fun d => { d with currentValue := f d, lastModified := g d,
                                    modifiedBy := h d })).map settingsEntryOf).foldl
        loadOneSetting base).find? (fun d => d.id = sid)).map (fun d => d.currentValue)
    = (((base.map (fun d => { d with currentValue := f d, lastModified := g d,
                                     modifiedBy := h d })).find?
        (fun d => d.id = sid)).map (fun d => d.currentValue)) := by
  have hes : ((base.map (fun d => { d with currentValue := f d, lastModified := g d,
                                           modifiedBy := h d })).map settingsEntryOf)
      = base.map (fun x => (x.id, f x, g x, h x)) := by
    rw [List.map_map]
    rfl
  rw [hes, loadSettings_as_map,
      find?_map_id_preserved base _ sid (fun d => applyEntries_id _ d),
      find?_map_id_preserved base
        (fun d => { d with currentValue := f d, lastModified := g d, modifiedBy := h d })
        sid (fun d => rfl)]
  cases hf : base.find? (fun d => d.id = sid) with
  | none => rfl
  | some d =>
    have hmem : d ∈ base := List.mem_of_find?_eq_some hf
    show some ((applyEntries _ d).currentValue) = some _
    rw [applyEntries_install base (fun x => (f x, g x, h x)) d hnd hmem]

set_option maxHeartbeats 4000000 in
/-- C3.  Settings: for every reachable settings-manager state (the
core settings with arbitrarily mutated persisted fields), saving the
JSON store and loading it into a freshly constructed manager
reproduces the current value of every setting id.  Workspaces: the
corresponding round trip is broken — `json.dump(..., default=str)`
stores the `workspace_type` enum as `"WorkspaceType.GENERAL"`, the
load loop's `WorkspaceType(...)` conversion raises `ValueError` after
`workspaces.clear()`, and the blanket `except` leaves the freshly
constructed manager with no workspaces at all, losing even the default
workspace it was initialised with. -/
theorem claim_C3_roundtrip :
    (∀ (f : SettingDef → PyVal) (g : SettingDef → Rat) (h : SettingDef → String)
       (sid : String),
      currentValueOf
        (freshSettingsState (saveSettings ⟨overrideSettings f g h, Option.none, []⟩).disk)
        sid
      = currentValueOf ⟨overrideSettings f g h, Option.none, []⟩ sid)
    ∧ (∀ now : Rat,
      (freshWsState now ((saveWorkspaces (freshWsState now Option.none)).disk)).workspaces
        = []
      ∧ (freshWsState now Option.none).workspaces = [(1, defaultWorkspace now)]) := by
  constructor
  · intro f g h sid
    exact settings_roundtrip_aux coreSettings f g h sid (by decide)
  · intro now
    exact ⟨rfl, rfl⟩

/-!
## C4: the exact-match tier shadows the substring tier
-/

/-- C4.  Fuzzy resolution returns an exactly-matching record whenever
one exists, even when a substring match against a different record
would also succeed: `_find_app_fuzzy`'s exact tier (equality of the
lower-cased name with the normalised query) runs before its substring
tier, and `_resolve_path`'s direct-existence tier runs before its
case-insensitive and partial tiers. -/
theorem claim_C4_exact_tier_first :
    (∀ (st : LauncherState) (query : String),
      (∃ a ∈ st.apps, pyLower a.name.data = pyStrip (pyLower query.data)) →
      ∃ a, findAppFuzzy st query = some a
        ∧ pyLower a.name.data = pyStrip (pyLower query.data))
    ∧ (∀ (entries : List String) (filename : String),
      filename ∈ entries → resolvePath entries filename = some filename) := by
  constructor
  · intro st query hex
    have hsome : (st.apps.find?
        (fun a => pyLower a.name.data = pyStrip (pyLower query.data))).isSome := by
      rw [List.find?_isSome]
      obtain ⟨a, ha, hq⟩ := hex
      exact ⟨a, ha, by simp [hq]⟩
    obtain ⟨b, hb⟩ := Option.isSome_iff_exists.mp hsome
    refine ⟨b, ?_, ?_⟩
    · show (match st.apps.find?
            (fun a => pyLower a.name.data = pyStrip (pyLower query.data)) with
        | some a => some a
        | none =>
          match st.apps.find?
              (fun a => containsSub (pyLower a.name.data) (pyStrip (pyLower query.data))) with
          | some a => some a
          | none =>
            match st.apps.find? (fun a =>
                a.keywords.any fun k =>
                  containsSub (pyLower k.data) (pyStrip (pyLower query.data))) with
            | some a => some a
            | none =>
              (st.apps.foldl (fun acc a =>
                let score := calcSimilarity (pyStrip (pyLower query.data)) (pyLower a.name.data)
                if acc.1 < score ∧ st.fuzzyThreshold ≤ score then (score, some a) else acc)
                ((0 : Rat), Option.none)).2) = some b
      rw [hb]
    · have := List.find?_some hb
      simpa using this
  · intro entries filename hmem
    have hc : entries.contains filename = true := by
      simpa using hmem
    show (if entries.contains filename then some filename else _) = some filename
    rw [hc]
    rfl

/-- Witness for C4: a launcher whose first application only
substring-matches the query while the second matches exactly resolves
to an exact match; a directory listing containing the queried filename
resolves directly to it. -/
theorem claim_C4_witness :
    (∃ a, findAppFuzzy (mkLauncher
        [⟨"texteditor_pro", "TextEditor Pro", "", "edit", [], [], 0, false⟩,
         ⟨"text", "Text", "", "text", [], [], 0, false⟩]) "Text"
        = some a ∧ pyLower a.name.data = pyStrip (pyLower "Text".data))
    ∧ resolvePath ["readme.md", "notes.txt"] "notes.txt" = some "notes.txt" :=
  ⟨claim_C4_exact_tier_first.1 (mkLauncher
      [⟨"texteditor_pro", "TextEditor Pro", "", "edit", [], [], 0, false⟩,
       ⟨"text", "Text", "", "text", [], [], 0, false⟩]) "Text"
      ⟨⟨"text", "Text", "", "text", [], [], 0, false⟩, by decide, by decide⟩,
   claim_C4_exact_tier_first.2 ["readme.md", "notes.txt"] "notes.txt" (by decide)⟩

/-!
## C6: empty and whitespace-only commands
-/

/-- A whitespace-only string tokenises to nothing. -/
theorem pySplitWs_eq_nil (l : List Char) (h : ∀ c ∈ l, isPyWs c = true) :
    pySplitWs l = [] := by
  induction l with
  | nil => rfl
  | cons c rest ih =>
    have hc : isPyWs c = true := h c (by simp)
    simp only [pySplitWs, hc, if_true]
    exact ih fun d hd => h d (by simp [hd])

/-- C6.  An empty or whitespace-only command normalises to the empty
string, matches no intent, and `process_command` returns the canned
help text unchanged (total, hence exception-free), leaving the state
alone. -/
theorem claim_C6_whitespace_only_help (st : FMState) (s : String)
    (h : ∀ c ∈ s.data, isPyWs c = true) :
    fmProcessCommand st s = (fmHelpText s, st) := by
  have h2 : fmPreprocess s.data = [] := by
    show pyStrip (pyLower (pyReplace "would you".data []
      (pyReplace "please".data [] (pyReplace "can you".data []
        (pyReplace ("i" ++ apos ++ "d like to").data []
          (pyJoinSp (pySplitWs s.data))))))) = []
    rw [pySplitWs_eq_nil s.data h]
    rfl
  simp only [fmProcessCommand]
  rw [h2, show fmExtract [] = none from rfl]

/-- Witness for C6 at the whitespace-only input `" \t "`. -/
theorem claim_C6_witness :
    fmProcessCommand ⟨"/home/u", []⟩ " \t " = (fmHelpText " \t ", ⟨"/home/u", []⟩) :=
  claim_C6_whitespace_only_help ⟨"/home/u", []⟩ " \t " (by decide)

/-!
## C9 and C10 support: character and normaliser facts
-/

/-- `Char.ofNat` on a valid scalar value keeps the code point. -/
theorem char_toNat_ofNat (n : Nat) (h : n.isValidChar) : (Char.ofNat n).toNat = n := by
  unfold Char.ofNat
  rw [dif_pos h]
  rfl

/-- The code point of `pyLowerChar`. -/
theorem pyLowerChar_toNat (c : Char) :
    (pyLowerChar c).toNat
      = if 65 ≤ c.toNat ∧ c.toNat ≤ 90 then c.toNat + 32 else c.toNat := by
  unfold pyLowerChar
  by_cases h : 65 ≤ c.toNat ∧ c.toNat ≤ 90
  · rw [if_pos h, if_pos h]
    exact char_toNat_ofNat _ (Or.inl (by omega))
  · rw [if_neg h, if_neg h]

/-- Characters are equal iff their code points are. -/
theorem char_eq_iff_toNat (a b : Char) : a = b ↔ a.toNat = b.toNat := by
  constructor
  · rintro rfl
    rfl
  · intro h
    exact Char.ext (UInt32.toNat.inj h)

/-- `isPyWs` through code points. -/
theorem isPyWs_iff_toNat (c : Char) :
    isPyWs c = true
      ↔ (c.toNat = 32 ∨ c.toNat = 9 ∨ c.toNat = 10 ∨ c.toNat = 13
          ∨ c.toNat = 11 ∨ c.toNat = 12) := by
  unfold isPyWs
  simp only [Bool.or_eq_true, decide_eq_true_eq]
  rw [char_eq_iff_toNat c ' ', char_eq_iff_toNat c '\t', char_eq_iff_toNat c '\n',
      char_eq_iff_toNat c '\r', char_eq_iff_toNat c '\x0b', char_eq_iff_toNat c '\x0c']
  rw [show (' ').toNat = 32 from rfl, show ('\t').toNat = 9 from rfl,
      show ('\n').toNat = 10 from rfl, show ('\r').toNat = 13 from rfl,
      show ('\x0b').toNat = 11 from rfl, show ('\x0c').toNat = 12 from rfl]
  tauto

/-- Lower-casing does not change whitespace-ness. -/
theorem isPyWs_pyLowerChar (c : Char) : isPyWs (pyLowerChar c) = isPyWs c := by
  by_cases h : 65 ≤ c.toNat ∧ c.toNat ≤ 90
  · have h1 : (pyLowerChar c).toNat = c.toNat + 32 := by rw [pyLowerChar_toNat, if_pos h]
    have w1 : ¬ (isPyWs (pyLowerChar c) = true) := by rw [isPyWs_iff_toNat, h1]; omega
    have w2 : ¬ (isPyWs c = true) := by rw [isPyWs_iff_toNat]; omega
    cases hx : isPyWs (pyLowerChar c) <;> cases hy : isPyWs c <;> simp_all
  · have h1 : pyLowerChar c = c := by unfold pyLowerChar; rw [if_neg h]
    rw [h1]

/-- Lower-casing is idempotent on characters. -/
theorem pyLowerChar_idem (c : Char) : pyLowerChar (pyLowerChar c) = pyLowerChar c := by
  rw [char_eq_iff_toNat, pyLowerChar_toNat (pyLowerChar c), pyLowerChar_toNat c]
  split_ifs <;> omega

/-- Lower-casing is idempotent on strings. -/
theorem pyLower_idem (l : List Char) : pyLower (pyLower l) = pyLower l := by
  unfold pyLower
  rw [List.map_map]
  exact List.map_congr_left fun c _ => pyLowerChar_idem c

/-- Lower-casing fixes spaces. -/
theorem pyLowerChar_space : pyLowerChar ' ' = ' ' := by decide

/-- Lower-casing and stripping commute. -/
theorem pyLower_pyStrip_comm (l : List Char) :
    pyLower (pyStrip l) = pyStrip (pyLower l) := by
  have hdw : ∀ m : List Char, (pyLower m).dropWhile isPyWs = pyLower (m.dropWhile isPyWs) := by
    intro m
    show (m.map pyLowerChar).dropWhile isPyWs = _
    rw [List.dropWhile_map]
    have : (isPyWs ∘ pyLowerChar) = isPyWs := funext fun c => isPyWs_pyLowerChar c
    rw [this]
    rfl
  have mrev : ∀ m : List Char, pyLower m.reverse = (pyLower m).reverse := by
    intro m
    show m.reverse.map pyLowerChar = (m.map pyLowerChar).reverse
    rw [List.map_reverse]
  show pyLower (((l.dropWhile isPyWs).reverse.dropWhile isPyWs).reverse)
    = (((pyLower l).dropWhile isPyWs).reverse.dropWhile isPyWs).reverse
  rw [mrev, ← hdw, mrev, ← hdw]

/-- Whitespace in the output of `collapseWs` is a single space. -/
theorem collapseWs_ws_space (l : List Char) :
    ∀ c ∈ collapseWs l, isPyWs c = true → c = ' ' := by
  induction l with
  | nil => intro c hc; cases hc
  | cons a rest ih =>
    cases rest with
    | nil =>
      intro c hc hw
      by_cases ha : isPyWs a = true
      · rw [show collapseWs [a] = [' '] by simp [collapseWs, ha]] at hc
        simpa using hc
      · rw [show collapseWs [a] = [a] by simp [collapseWs, ha]] at hc
        simp only [List.mem_singleton] at hc
        rw [hc] at hw
        exact absurd hw ha
    | cons b rest' =>
      intro c hc hw
      by_cases hab : (isPyWs a && isPyWs b) = true
      · rw [show collapseWs (a :: b :: rest') = collapseWs (b :: rest') by
          simp [collapseWs, hab]] at hc
        exact ih c hc hw
      · rw [show collapseWs (a :: b :: rest')
            = (if isPyWs a then ' ' else a) :: collapseWs (b :: rest') by
          simp [collapseWs, hab]] at hc
        rcases List.mem_cons.mp hc with hceq | hcm
        · by_cases ha : isPyWs a = true
          · rw [hceq, if_pos ha]
          · rw [hceq] at hw
            rw [if_neg ha] at hw
            exact absurd hw ha
        · exact ih c hcm hw

/-- `noTwoWs` as a `Chain'` of the symmetric no-double-whitespace
relation. -/
theorem noTwoWs_iff_chain (l : List Char) :
    noTwoWs l = true
      ↔ List.Chain' (fun a b => ¬(isPyWs a = true ∧ isPyWs b = true)) l := by
  induction l with
  | nil => simp [noTwoWs]
  | cons a rest ih =>
    cases rest with
    | nil => simp [noTwoWs]
    | cons b rest' =>
      rw [List.chain'_cons, ← ih]
      show (!(isPyWs a && isPyWs b) && noTwoWs (b :: rest')) = true ↔ _
      rw [Bool.and_eq_true, Bool.not_eq_true', Bool.and_eq_false_iff]
      constructor
      · rintro ⟨h1, h2⟩
        exact ⟨fun hx => by rcases h1 with h | h <;> simp_all, h2⟩
      · rintro ⟨h1, h2⟩
        refine ⟨?_, h2⟩
        by_cases hx : isPyWs a = true
        · right
          cases hy : isPyWs b
          · rfl
          · exact absurd ⟨hx, hy⟩ h1
        · left
          simpa using hx

/-- The head of a collapsed non-empty list. -/
theorem collapseWs_head (b : Char) (rest : List Char) :
    (collapseWs (b :: rest)).head? = some (if isPyWs b then ' ' else b) := by
  induction rest generalizing b with
  | nil =>
    by_cases hb : isPyWs b = true <;> simp [collapseWs, hb]
  | cons d rest' ih =>
    by_cases hbd : (isPyWs b && isPyWs d) = true
    · rw [show collapseWs (b :: d :: rest') = collapseWs (d :: rest') by
        simp [collapseWs, hbd]]
      rw [ih d]
      have hb : isPyWs b = true := by
        rcases Bool.and_eq_true .. |>.mp hbd with ⟨h1, _⟩
        exact h1
      have hd : isPyWs d = true := by
        rcases Bool.and_eq_true .. |>.mp hbd with ⟨_, h2⟩
        exact h2
      rw [if_pos hb, if_pos hd]
    · rw [show collapseWs (b :: d :: rest')
          = (if isPyWs b then ' ' else b) :: collapseWs (d :: rest') by
        simp [collapseWs, hbd]]
      rfl

/-- `collapseWs` never produces two adjacent whitespace characters. -/
theorem collapseWs_noTwoWs (l : List Char) : noTwoWs (collapseWs l) = true := by
  induction l with
  | nil => rfl
  | cons a rest ih =>
    cases rest with
    | nil => by_cases ha : isPyWs a = true <;> simp [collapseWs, ha, noTwoWs]
    | cons b rest' =>
      by_cases hab : (isPyWs a && isPyWs b) = true
      · rw [show collapseWs (a :: b :: rest') = collapseWs (b :: rest') by
          simp [collapseWs, hab]]
        exact ih
      · rw [show collapseWs (a :: b :: rest')
            = (if isPyWs a then ' ' else a) :: collapseWs (b :: rest') by
          simp [collapseWs, hab]]
        cases hcb : collapseWs (b :: rest') with
        | nil => rfl
        | cons h1 t1 =>
          have hh1 : h1 = if isPyWs b then ' ' else b := by
            have hx := collapseWs_head b rest'
            rw [hcb] at hx
            exact Option.some.inj hx
          show (!(isPyWs (if isPyWs a then ' ' else a) && isPyWs h1)
            && noTwoWs (h1 :: t1)) = true
          rw [Bool.and_eq_true]
          constructor
          · rw [Bool.not_eq_true', Bool.and_eq_false_iff]
            by_cases ha : isPyWs a = true
            · right
              rw [hh1]
              have hb : isPyWs b = false := by
                cases hy : isPyWs b
                · rfl
                · exact absurd (by rw [ha, hy]; rfl) hab
              rw [if_neg (by simp [hb])]
              exact hb
            · left
              rw [if_neg ha]
              simpa using ha
          · rw [← hcb]
            exact ih

/-- Stripping preserves the no-adjacent-whitespace property. -/
theorem noTwoWs_pyStrip (l : List Char) (h : noTwoWs l = true) :
    noTwoWs (pyStrip l) = true := by
  rw [noTwoWs_iff_chain] at h ⊢
  have hsym : ∀ (m : List Char),
      List.Chain' (fun a b => ¬(isPyWs a = true ∧ isPyWs b = true)) m →
      List.Chain' (fun a b => ¬(isPyWs a = true ∧ isPyWs b = true)) m.reverse := by
    intro m hm
    rw [List.chain'_reverse]
    exact hm.imp fun a b hab => fun hxy => hab ⟨hxy.2, hxy.1⟩
  exact hsym _ ((hsym _ (h.suffix (List.dropWhile_suffix _))).suffix
    (List.dropWhile_suffix _))

/-- The head of a stripped list is not whitespace. -/
theorem pyStrip_head_not_ws (l : List Char) (c : Char)
    (h : (pyStrip l).head? = some c) : isPyWs c = false := by
  have hpre : pyStrip l <+: (l.dropWhile isPyWs).reverse.reverse :=
    List.reverse_prefix.mpr (List.dropWhile_suffix _)
  rw [List.reverse_reverse] at hpre
  obtain ⟨t, ht⟩ := hpre
  have hm : (l.dropWhile isPyWs).head? = some c := by
    rw [← ht, List.head?_append, h]
    rfl
  have hd := List.head?_dropWhile_not isPyWs l
  rw [hm] at hd
  exact hd

/-- The last character of a stripped list is not whitespace. -/
theorem pyStrip_getLast_not_ws (l : List Char) (c : Char)
    (h : (pyStrip l).getLast? = some c) : isPyWs c = false := by
  have h' : ((l.dropWhile isPyWs).reverse.dropWhile isPyWs).reverse.getLast?
      = some c := h
  have h2 : ((l.dropWhile isPyWs).reverse.dropWhile isPyWs).head? = some c := by
    rw [List.getLast?_reverse] at h'
    exact h'
  have hd := List.head?_dropWhile_not isPyWs (l.dropWhile isPyWs).reverse
  rw [h2] at hd
  exact hd

/-- Every character of a stripped list occurs in the original. -/
theorem pyStrip_mem (l : List Char) (c : Char) (h : c ∈ pyStrip l) : c ∈ l := by
  have h1 : c ∈ (l.dropWhile isPyWs).reverse.dropWhile isPyWs := by
    rw [← List.mem_reverse]
    exact h
  have h2 : c ∈ (l.dropWhile isPyWs).reverse := (List.dropWhile_suffix _).subset h1
  rw [List.mem_reverse] at h2
  exact (List.dropWhile_suffix _).subset h2

/-!
The three regex-sub normalisers share the shape
`pyLower (pyStrip (collapseWs ·))`; the following facts apply to all
of them.
-/

/-- Whitespace surviving the normalising tail is a single space. -/
theorem normTail_ws_space (x : List Char) :
    ∀ c ∈ pyLower (pyStrip (collapseWs x)), isPyWs c = true → c = ' ' := by
  intro c hc hw
  obtain ⟨d, hd, rfl⟩ := List.mem_map.mp hc
  have hdw : isPyWs d = true := by
    rw [← isPyWs_pyLowerChar]
    exact hw
  have : d = ' ' := collapseWs_ws_space x d (pyStrip_mem _ _ hd) hdw
  rw [this, pyLowerChar_space]

/-- No newline survives the normalising tail. -/
theorem normTail_no_newline (x : List Char) :
    ∀ c ∈ pyLower (pyStrip (collapseWs x)), c ≠ '\n' := by
  intro c hc hceq
  have hw : isPyWs c = true := by
    rw [hceq]
    decide
  have := normTail_ws_space x c hc hw
  rw [this] at hceq
  cases hceq

/-- The normalising tail yields no two adjacent whitespace characters. -/
theorem normTail_noTwoWs (x : List Char) :
    noTwoWs (pyLower (pyStrip (collapseWs x))) = true := by
  have h1 : noTwoWs (pyStrip (collapseWs x)) = true :=
    noTwoWs_pyStrip _ (collapseWs_noTwoWs x)
  rw [noTwoWs_iff_chain] at h1 ⊢
  show List.Chain' _ (List.map pyLowerChar _)
  rw [List.chain'_map]
  exact h1.imp fun a b hab => by
    rw [isPyWs_pyLowerChar, isPyWs_pyLowerChar]
    exact hab

/-- The normalising tail starts with a non-whitespace character. -/
theorem normTail_head_not_ws (x : List Char) (c : Char)
    (h : (pyLower (pyStrip (collapseWs x))).head? = some c) : isPyWs c = false := by
  have h1 : (List.map pyLowerChar (pyStrip (collapseWs x))).head?
      = ((pyStrip (collapseWs x)).head?).map pyLowerChar := List.head?_map _ _
  rw [show pyLower (pyStrip (collapseWs x)) = List.map pyLowerChar (pyStrip (collapseWs x)) from rfl, h1] at h
  cases hh : (pyStrip (collapseWs x)).head? with
  | none => rw [hh] at h; cases h
  | some d =>
    rw [hh] at h
    have hd : isPyWs d = false := pyStrip_head_not_ws _ _ hh
    have : pyLowerChar d = c := Option.some.inj h
    rw [← this, isPyWs_pyLowerChar]
    exact hd

/-- The normalising tail ends with a non-whitespace character. -/
theorem normTail_getLast_not_ws (x : List Char) (c : Char)
    (h : (pyLower (pyStrip (collapseWs x))).getLast? = some c) : isPyWs c = false := by
  have h1 : (List.map pyLowerChar (pyStrip (collapseWs x))).getLast?
      = ((pyStrip (collapseWs x)).getLast?).map pyLowerChar := List.getLast?_map _ _
  rw [show pyLower (pyStrip (collapseWs x)) = List.map pyLowerChar (pyStrip (collapseWs x)) from rfl, h1] at h
  cases hh : (pyStrip (collapseWs x)).getLast? with
  | none => rw [hh] at h; cases h
  | some d =>
    rw [hh] at h
    have hd : isPyWs d = false := pyStrip_getLast_not_ws _ _ hh
    have : pyLowerChar d = c := Option.some.inj h
    rw [← this, isPyWs_pyLowerChar]
    exact hd

/-!
## C9: the text normaliser contract
-/

/-- C9 counterexample.  The file manager's normaliser does not remove
the filler `"could you"` (its `str.replace` list covers only
`"i'd like to"`, `"can you"`, `"please"`, `"would you"`), whereas the
settings manager's word-boundary substitution does: the input
`"could you list files"` refutes the claim that every component
removes all four fillers. -/
theorem claim_C9_counterexample :
    fmPreprocess "could you list files".data = "could you list files".data
    ∧ containsSub (fmPreprocess "could you list files".data) "could you".data = true
    ∧ settingsPreprocess "could you list files".data = "list files".data := by
  refine ⟨by decide, by decide, by decide⟩

/-- C9 (amended).  The settings- and window-manager normalisers
return lowercased, whitespace-collapsed (only single interior spaces,
no leading/trailing whitespace) strings with the four fillers removed
by word-boundary regex substitution; the file manager's normaliser is
lowercased and stripped but removes only `"i'd like to"`, `"can
you"`, `"please"`, `"would you"` by plain substring replacement
applied before lower-casing (so `"could you"` survives, and interior
double spaces can remain).  All three always succeed and map the
empty string to the empty string. -/
theorem claim_C9_amended_normalisers (s : String) :
    (pyLower (settingsPreprocess s.data) = settingsPreprocess s.data
      ∧ pyLower (windowPreprocess s.data) = windowPreprocess s.data
      ∧ pyLower (fmPreprocess s.data) = fmPreprocess s.data)
    ∧ ((∀ c ∈ settingsPreprocess s.data, isPyWs c = true → c = ' ')
      ∧ noTwoWs (settingsPreprocess s.data) = true
      ∧ (∀ c, (settingsPreprocess s.data).head? = some c → isPyWs c = false)
      ∧ (∀ c, (settingsPreprocess s.data).getLast? = some c → isPyWs c = false))
    ∧ ((∀ c ∈ windowPreprocess s.data, isPyWs c = true → c = ' ')
      ∧ noTwoWs (windowPreprocess s.data) = true
      ∧ (∀ c, (windowPreprocess s.data).head? = some c → isPyWs c = false)
      ∧ (∀ c, (windowPreprocess s.data).getLast? = some c → isPyWs c = false))
    ∧ ((∀ c, (fmPreprocess s.data).head? = some c → isPyWs c = false)
      ∧ (∀ c, (fmPreprocess s.data).getLast? = some c → isPyWs c = false))
    ∧ (settingsPreprocess [] = [] ∧ windowPreprocess [] = [] ∧ fmPreprocess [] = [])
    ∧ (settingsPreprocess "could you list files".data = "list files".data
      ∧ windowPreprocess "could you list files".data = "list files".data
      ∧ settingsPreprocess "i want to list files".data = "list files".data
      ∧ windowPreprocess "i want to list files".data = "i want to list files".data
      ∧ fmPreprocess "can you list files".data = "list files".data
      ∧ fmPreprocess "please list files".data = "list files".data
      ∧ fmPreprocess "would you list files".data = "list files".data) := by
  have hlowlem : ∀ x : List Char,
      pyLower (pyStrip (pyLower x)) = pyStrip (pyLower x) := by
    intro x
    rw [pyLower_pyStrip_comm, pyLower_idem]
  refine ⟨⟨pyLower_idem _, pyLower_idem _, hlowlem _⟩,
    ⟨normTail_ws_space _, normTail_noTwoWs _,
     fun c => normTail_head_not_ws _ c, fun c => normTail_getLast_not_ws _ c⟩,
    ⟨normTail_ws_space _, normTail_noTwoWs _,
     fun c => normTail_head_not_ws _ c, fun c => normTail_getLast_not_ws _ c⟩,
    ⟨fun c => pyStrip_head_not_ws _ c, fun c => pyStrip_getLast_not_ws _ c⟩,
    ⟨by decide, by decide, by decide⟩,
    ⟨by decide, by decide, by decide, by decide, by decide, by decide, by decide⟩⟩

/-!
## C10: the launch catch-all pattern
-/

/-- The lazy `.+` can always extend to the end of a newline-free
input: the full-length iteration is among the engine's results. -/
theorem plusIter_dot_mem (s : List Char) (hnl : ∀ c ∈ s, c ≠ '\n') :
    ∀ (fuel i : Nat) (caps : Caps), i < s.length → s.length ≤ i + fuel →
    (s.length, caps) ∈ plusIter (fun j c => reRun s RE.dot j c) true fuel i caps := by
  intro fuel
  induction fuel with
  | zero => intro i caps h1 h2; omega
  | succ n ih =>
    intro i caps h1 h2
    have hget : s.get? i = some (s.get ⟨i, h1⟩) := List.get?_eq_get h1
    have hne : s.get ⟨i, h1⟩ ≠ '\n' := hnl _ (List.get?_mem hget)
    have hbody : reRun s .dot i caps = [(i + 1, caps)] := by
      show clsStep (fun d => d ≠ '\n') s i caps = _
      unfold clsStep
      rw [hget]
      simp [hne]
      exact hne
    show (s.length, caps) ∈ (reRun s .dot i caps).flatMap _
    rw [hbody]
    simp only [List.flatMap_cons, List.flatMap_nil, List.append_nil]
    rw [if_neg (by omega)]
    by_cases hend : i + 1 = s.length
    · exact List.mem_cons.mpr (Or.inl (by rw [hend]))
    · exact List.mem_cons_of_mem _ (ih (i + 1) caps (by omega) (by omega))

/-- The launcher's catch-all pattern `(.+?)(?:\s+please)?$` matches
every non-empty newline-free text starting at position 0. -/
theorem launchP3_matches (s : List Char) (hne : s ≠ [])
    (hnl : ∀ c ∈ s, c ≠ '\n') :
    reRun s (rcat [rcapLazy 1, ropt (rcat [rplus .wsc, rstr "please"]), .eos]) 0 []
      ≠ [] := by
  have hlen : 0 < s.length := List.length_pos.mpr hne
  have h1 : (s.length, ([(1, 0, s.length)] : Caps)) ∈ reRun s (rcapLazy 1) 0 [] := by
    show _ ∈ (reRun s (.plus true .dot) 0 []).map _
    apply List.mem_map.mpr
    refine ⟨(s.length, []), ?_, rfl⟩
    show _ ∈ plusIter _ true (s.length + 1) 0 []
    exact plusIter_dot_mem s hnl (s.length + 1) 0 [] hlen (by omega)
  have h2 : (s.length, ([(1, 0, s.length)] : Caps))
      ∈ reRun s (.opt false (rcat [rplus .wsc, rstr "please"])) s.length
          [(1, 0, s.length)] := by
    show _ ∈ reRun s _ s.length _ ++ [(s.length, [(1, 0, s.length)])]
    exact List.mem_append_right _ (by simp)
  have h3 : (s.length, ([(1, 0, s.length)] : Caps))
      ∈ reRun s .eos s.length [(1, 0, s.length)] := by
    show _ ∈ (if (s.length = s.length
        || (s.length + 1 = s.length && s.get? s.length = some '\n')) = true
      then [(s.length, [(1, 0, s.length)])] else [])
    rw [if_pos (by simp)]
    simp
  have h4 : (s.length, ([(1, 0, s.length)] : Caps))
      ∈ reRun s .eps s.length [(1, 0, s.length)] := by
    show _ ∈ [(s.length, [(1, 0, s.length)])]
    simp
  apply List.ne_nil_of_mem (a := (s.length, ([(1, 0, s.length)] : Caps)))
  show _ ∈ (reRun s (rcapLazy 1) 0 []).flatMap _
  apply List.mem_flatMap.mpr
  refine ⟨(s.length, [(1, 0, s.length)]), h1, ?_⟩
  show _ ∈ (reRun s (.opt false (rcat [rplus .wsc, rstr "please"])) s.length
      [(1, 0, s.length)]).flatMap _
  apply List.mem_flatMap.mpr
  refine ⟨(s.length, [(1, 0, s.length)]), h2, ?_⟩
  show _ ∈ (reRun s .eos s.length [(1, 0, s.length)]).flatMap _
  apply List.mem_flatMap.mpr
  exact ⟨(s.length, [(1, 0, s.length)]), h3, h4⟩

/-- A pattern whose engine run succeeds at position 0 makes
`re.search` succeed. -/
theorem pySearchGroups_isSome_of (r : RE) (s : List Char)
    (h : reRun s r 0 [] ≠ []) : (pySearchGroups r s).isSome = true := by
  cases hh : (reRun s r 0 []).head? with
  | none => exact absurd (List.head?_eq_none_iff.mp hh) h
  | some jc =>
    have hsearch : reSearch r s = some (0, jc.1, jc.2) := by
      show (match (reRun s r 0 []).head? with
            | some jc => some (0, jc.1, jc.2)
            | none => reSearchFrom r s s.length 1) = _
      rw [hh]
    unfold pySearchGroups
    rw [hsearch]
    rfl

/-- The matcher tags results of an intent's pattern list with that
intent. -/
theorem findSome?_intent_fst (i : String) (ps : List RE) (text : List Char)
    (b : String × List (Option (List Char)))
    (h : (ps.findSome? fun r => (pySearchGroups r text).map fun g => (i, g)) = some b) :
    b.1 = i := by
  induction ps with
  | nil => cases h
  | cons p rest ih =>
    rw [List.findSome?_cons] at h
    cases hp : pySearchGroups p text with
    | some g =>
      rw [hp] at h
      have : some (i, g) = some b := h
      rw [← Option.some.inj this]
    | none =>
      rw [hp] at h
      exact ih h

/-- If some pattern of the first table row matches, the matcher
returns that row's intent. -/
theorem extractIntent_head_matches (i : String) (ps : List RE)
    (rest : List (String × List RE)) (text : List Char) (p : RE) (hp : p ∈ ps)
    (hmatch : (pySearchGroups p text).isSome = true) :
    ∃ g, extractIntent ((i, ps) :: rest) text = some (i, g) := by
  have hin : (ps.findSome? fun r => (pySearchGroups r text).map fun g => (i, g)).isSome := by
    rw [List.findSome?_isSome_iff]
    refine ⟨p, hp, ?_⟩
    cases hx : pySearchGroups p text with
    | some g => simp
    | none => rw [hx] at hmatch; cases hmatch
  obtain ⟨b, hb⟩ := Option.isSome_iff_exists.mp hin
  have hb1 : b.1 = i := findSome?_intent_fst i ps text b hb
  refine ⟨b.2, ?_⟩
  have hres : extractIntent ((i, ps) :: rest) text = some b := by
    show List.findSome?
      (fun ip => ip.2.findSome? fun r => (pySearchGroups r text).map fun g => (ip.1, g))
      ((i, ps) :: rest) = some b
    rw [List.findSome?_cons_of_isSome]
    · exact hb
    · exact hin
  rw [hres, ← hb1]

/-- C10.  Every non-empty normalised launcher input is claimed by the
`launch` intent: its third pattern `(.+?)(?:\s+please)?$` matches any
non-empty newline-free text (and normalised text contains no
newlines), and `launch` is the first intent in the generated table —
so `search` and `list` are unreachable for non-empty input. -/
theorem claim_C10_launch_catch_all (t : String)
    (hne : launcherPreprocess t.data ≠ []) :
    ∃ e, launcherExtract (launcherPreprocess t.data) = some ("launch", e) := by
  have hnl : ∀ c ∈ launcherPreprocess t.data, c ≠ '\n' := fun c hc =>
    normTail_no_newline _ c hc
  have hp3 : (pySearchGroups
      (rcat [rcapLazy 1, ropt (rcat [rplus .wsc, rstr "please"]), .eos])
      (launcherPreprocess t.data)).isSome = true :=
    pySearchGroups_isSome_of _ _
      (launchP3_matches (launcherPreprocess t.data) hne hnl)
  obtain ⟨g, hg⟩ := extractIntent_head_matches "launch"
    [rcat [ralts [rstr "open", rstr "launch", rstr "start", rstr "run",
                  rstr "execute"], rplus .wsc, rcapAll 1],
     rcat [ropt (rcat [.lit 'i', rplus .wsc, rstr "want", rplus .wsc, rstr "to",
                       rplus .wsc]),
           ralts [rstr "use", rstr "open", rstr "start"], rplus .wsc, rcapAll 1],
     rcat [rcapLazy 1, ropt (rcat [rplus .wsc, rstr "please"]), .eos]]
    (launcherPatterns.drop 1) (launcherPreprocess t.data)
    (rcat [rcapLazy 1, ropt (rcat [rplus .wsc, rstr "please"]), .eos])
    (by simp) hp3
  refine ⟨⟨(g.head?).bind id, launcherPreprocess t.data⟩, ?_⟩
  show (extractIntent launcherPatterns (launcherPreprocess t.data)).map _ = _
  rw [show extractIntent launcherPatterns (launcherPreprocess t.data)
      = some ("launch", g) from hg]
  rfl

/-- Witness for C10 at the input `"list applications"`. -/
theorem claim_C10_witness :
    launcherPreprocess "list applications".data ≠ []
    ∧ ∃ e, launcherExtract (launcherPreprocess "list applications".data)
        = some ("launch", e) :=
  ⟨by decide, claim_C10_launch_catch_all "list applications" (by decide)⟩

/-- Witness for C3: the round-trip equality at `theme_mode` for a
state with the theme set to `'dark'`, and the concrete workspace loss. -/
theorem claim_C3_witness :
    currentValueOf
      (freshSettingsState (saveSettings
        ⟨overrideSettings (fun d => if d.id = "theme_mode" then .str "dark"
            else d.currentValue) (fun _ => 5) (fun _ => "user"),
          Option.none, []⟩).disk) "theme_mode"
      = currentValueOf
        ⟨overrideSettings (fun d => if d.id = "theme_mode" then .str "dark"
            else d.currentValue) (fun _ => 5) (fun _ => "user"),
          Option.none, []⟩ "theme_mode"
    ∧ (freshWsState 0 ((saveWorkspaces (freshWsState 0 Option.none)).disk)).workspaces
        = [] :=
  ⟨claim_C3_roundtrip.1
      (fun d => if d.id = "theme_mode" then .str "dark" else d.currentValue)
      (fun _ => 5) (fun _ => "user") "theme_mode",
   (claim_C3_roundtrip.2 0).1⟩

/-- Witness for the amended C9: the settings normaliser output
`"list files"` starts with the non-whitespace `'l'`, obtained by
applying the amended theorem at a concrete input. -/
theorem claim_C9_amended_witness : isPyWs 'l' = false :=
  (claim_C9_amended_normalisers "  Could you LIST files  ").2.1.2.2.1 'l' (by decide)
